import Mathlib

/-!
# gtbridge — verification of the spot-bridge daemon against its specification

Shallow embedding of the gtbridge sources (band/mode classifier, WSJT-X wire
codec, spot cache with TTL/grace, HTTP poller dedup policy, click-reply
routing) together with theorems settling the specification's claims.

Modelling conventions used throughout:
* Python `float` frequencies and timestamps are embedded as exact rationals
  (`ℚ`); every constant appearing in the sources is representable exactly.
* Python `bytes` are embedded as `List Nat` with every element `< 256`;
  Python `str` values handled by the wire codec are embedded as their lists
  of Unicode code points (`List Nat`).
* Fallible Python code is embedded in `Except PyExc`, where returning
  Python's `None` is an ordinary `Except.ok` result and a *raised* exception
  is `Except.error`.
-/

namespace GTB

/-! ## Band/mode classifier — `src/dxcluster.py` -/

/-- `_FT8_DIAL`: standard FT8 dial frequencies (kHz). -/
def FT8_DIAL : List ℚ :=
  [1840, 3573, 5357, 7074, 10136, 14074, 18100, 21074, 24915, 28074, 50313]

/-- `_FT4_DIAL`: standard FT4 dial frequencies (kHz); 3575.5 and 7047.5 are
written as exact rationals. -/
def FT4_DIAL : List ℚ :=
  [mkRat 7151 2, mkRat 14095 2, 10140, 14080, 18104, 21140, 24919, 28180, 50318]

/-- `_DIGI_BW`: approximate audio bandwidth for FT8/FT4 (kHz). -/
def DIGI_BW : ℚ := 3

/-- `_BAND_PLAN[1]`: IARU Region 1 sub-band allocations. -/
def BAND_PLAN_R1 : List (ℚ × ℚ × String) :=
  [(1810, 1838, "CW"), (1843, 2000, "SSB"),
   (3500, 3570, "CW"), (3580, 3600, "RTTY"), (3600, 3800, "SSB"),
   (5330, 5410, "SSB"),
   (7000, 7040, "CW"), (7040, 7060, "RTTY"), (7060, 7200, "SSB"),
   (10100, 10130, "CW"),
   (14000, 14070, "CW"), (14080, 14112, "RTTY"), (14112, 14350, "SSB"),
   (18068, 18095, "CW"), (18100, 18109, "RTTY"), (18111, 18168, "SSB"),
   (21000, 21070, "CW"), (21080, 21120, "RTTY"), (21151, 21450, "SSB"),
   (24890, 24915, "CW"), (24920, 24929, "RTTY"), (24931, 24990, "SSB"),
   (28000, 28070, "CW"), (28080, 28150, "RTTY"), (28300, 29700, "SSB"),
   (50000, 50100, "CW"), (50400, 52000, "SSB")]

/-- `_BAND_PLAN[2]`: Region 2 (ARRL) sub-band allocations. -/
def BAND_PLAN_R2 : List (ℚ × ℚ × String) :=
  [(1800, 1840, "CW"), (1850, 2000, "SSB"),
   (3500, 3570, "CW"), (3580, 3600, "RTTY"), (3600, 4000, "SSB"),
   (5330, 5410, "SSB"),
   (7000, 7070, "CW"), (7080, 7125, "RTTY"), (7125, 7300, "SSB"),
   (10100, 10130, "CW"),
   (14000, 14070, "CW"), (14080, 14100, "RTTY"), (14150, 14350, "SSB"),
   (18068, 18100, "CW"), (18100, 18109, "RTTY"), (18110, 18168, "SSB"),
   (21000, 21070, "CW"), (21080, 21120, "RTTY"), (21150, 21450, "SSB"),
   (24890, 24920, "CW"), (24920, 24929, "RTTY"), (24930, 24990, "SSB"),
   (28000, 28070, "CW"), (28080, 28150, "RTTY"), (28300, 29700, "SSB"),
   (50000, 50100, "CW"), (50400, 54000, "SSB")]

/-- `_BAND_PLAN[3]`: IARU Region 3 sub-band allocations. -/
def BAND_PLAN_R3 : List (ℚ × ℚ × String) :=
  [(1800, 1838, "CW"), (1843, 2000, "SSB"),
   (3500, 3570, "CW"), (3580, 3600, "RTTY"), (3600, 3900, "SSB"),
   (5330, 5410, "SSB"),
   (7000, 7040, "CW"), (7040, 7060, "RTTY"), (7060, 7300, "SSB"),
   (10100, 10130, "CW"),
   (14000, 14070, "CW"), (14080, 14112, "RTTY"), (14112, 14350, "SSB"),
   (18068, 18095, "CW"), (18100, 18109, "RTTY"), (18110, 18168, "SSB"),
   (21000, 21070, "CW"), (21080, 21120, "RTTY"), (21150, 21450, "SSB"),
   (24890, 24920, "CW"), (24920, 24929, "RTTY"), (24930, 24990, "SSB"),
   (28000, 28070, "CW"), (28080, 28150, "RTTY"), (28300, 29700, "SSB"),
   (50000, 50100, "CW"), (50400, 54000, "SSB")]

/-- `_BAND_PLAN.get(region, _BAND_PLAN[2])`: region selection with
region-2 default for unknown regions. -/
def bandPlan (region : Int) : List (ℚ × ℚ × String) :=
  if region = 1 then BAND_PLAN_R1
  else if region = 2 then BAND_PLAN_R2
  else if region = 3 then BAND_PLAN_R3
  else BAND_PLAN_R2

/-- `freq_to_band`: map a frequency in kHz to the amateur band name, using
the fixed table of twelve closed intervals; `none` outside every band. -/
def freqToBand (freqKhz : ℚ) : Option String :=
  let bands : List (ℚ × ℚ × String) :=
    [(1800, 2000, "160m"), (3500, 4000, "80m"), (5330, 5410, "60m"),
     (7000, 7300, "40m"), (10100, 10150, "30m"), (14000, 14350, "20m"),
     (18068, 18168, "17m"), (21000, 21450, "15m"), (24890, 24990, "12m"),
     (28000, 29700, "10m"), (50000, 54000, "6m"), (144000, 148000, "2m")]
  match bands.find? (fun b => decide (b.1 ≤ freqKhz) && decide (freqKhz ≤ b.2.1)) with
  | some b => some b.2.2
  | none => none

/-- `infer_mode`: FT4 dial windows first, then FT8 windows, then the
region band plan, then default-SSB inside a band, else `none`. -/
def inferMode (freqKhz : ℚ) (region : Int) : Option String :=
  if FT4_DIAL.any (fun dial => decide (dial ≤ freqKhz) && decide (freqKhz ≤ dial + DIGI_BW)) then
    some "FT4"
  else if FT8_DIAL.any (fun dial => decide (dial ≤ freqKhz) && decide (freqKhz ≤ dial + DIGI_BW)) then
    some "FT8"
  else
    match (bandPlan region).find? (fun e => decide (e.1 ≤ freqKhz) && decide (freqKhz ≤ e.2.1)) with
    | some e => some e.2.2
    | none => if (freqToBand freqKhz).isSome then some "SSB" else none

/-! ## WSJT-X wire codec — `src/wsjtx_udp.py`

Bytes are `List Nat` (each element `< 256`); Python `str` values are lists
of Unicode code points.  A fallible decoder runs in `Except PyExc`: Python's
`return None` is `.ok none`, a raised exception is `.error`. -/

/-- The Python exceptions the decoders can raise. -/
inductive PyExc
  | structError
  | unicodeDecodeError
  deriving DecidableEq

/-- Result of running a piece of fallible Python code. -/
abbrev PRes (α : Type) := Except PyExc α

/-- `WSJTX_MAGIC = 0xADBCCBDA`. -/
def WSJTX_MAGIC : Nat := 0xADBCCBDA

/-- `WSJTX_SCHEMA = 2`. -/
def WSJTX_SCHEMA : Nat := 2

/-- A code point a Python `str.encode('utf-8')` accepts: a Unicode scalar
value (below 0x110000 and not a surrogate). -/
def ValidCp (c : Nat) : Prop := c < 0x110000 ∧ (c < 0xD800 ∨ 0xDFFF < c)

instance (c : Nat) : Decidable (ValidCp c) := by unfold ValidCp; infer_instance

/-- A Python string all of whose code points are encodable. -/
def ValidStr (s : List Nat) : Prop := ∀ c ∈ s, ValidCp c

instance (s : List Nat) : Decidable (ValidStr s) := by unfold ValidStr; infer_instance

/-- UTF-8 encoding of one code point (`chr(c).encode('utf-8')`). -/
def utf8EncodeChar (c : Nat) : List Nat :=
  if c < 0x80 then [c]
  else if c < 0x800 then [0xC0 + c / 0x40, 0x80 + c % 0x40]
  else if c < 0x10000 then
    [0xE0 + c / 0x1000, 0x80 + c / 0x40 % 0x40, 0x80 + c % 0x40]
  else
    [0xF0 + c / 0x40000, 0x80 + c / 0x1000 % 0x40, 0x80 + c / 0x40 % 0x40, 0x80 + c % 0x40]

/-- `s.encode('utf-8')` on a list of code points. -/
def utf8Encode (s : List Nat) : List Nat := s.flatMap utf8EncodeChar

/-- `data[i]` for in-range reads (`0` is a don't-care default for the
out-of-range case, which the callers below guard against). -/
def byteAt (data : List Nat) (i : Nat) : Nat := data.getD i 0

/-- One step of strict UTF-8 decoding: given a lead byte `b` and the bytes
after it, return the decoded code point and how many continuation bytes
were consumed, or `none` on a bad lead byte, a bad or missing continuation
byte, an overlong form, a surrogate, or an out-of-range value. -/
def utf8Step (b : Nat) (bs : List Nat) : Option (Nat × Nat) :=
  if b < 0x80 then some (b, 0)
  else if b < 0xC2 then none
  else if b < 0xE0 then
    if 1 ≤ bs.length ∧ 0x80 ≤ byteAt bs 0 ∧ byteAt bs 0 < 0xC0 then
      some ((b - 0xC0) * 0x40 + (byteAt bs 0 - 0x80), 1)
    else none
  else if b < 0xF0 then
    if 2 ≤ bs.length ∧ 0x80 ≤ byteAt bs 0 ∧ byteAt bs 0 < 0xC0 ∧
        0x80 ≤ byteAt bs 1 ∧ byteAt bs 1 < 0xC0 then
      let c := (b - 0xE0) * 0x1000 + (byteAt bs 0 - 0x80) * 0x40 + (byteAt bs 1 - 0x80)
      if 0x800 ≤ c ∧ (c < 0xD800 ∨ 0xDFFF < c) then some (c, 2) else none
    else none
  else if b < 0xF5 then
    if 3 ≤ bs.length ∧ 0x80 ≤ byteAt bs 0 ∧ byteAt bs 0 < 0xC0 ∧
        0x80 ≤ byteAt bs 1 ∧ byteAt bs 1 < 0xC0 ∧
        0x80 ≤ byteAt bs 2 ∧ byteAt bs 2 < 0xC0 then
      let c := (b - 0xF0) * 0x40000 + (byteAt bs 0 - 0x80) * 0x1000 +
               (byteAt bs 1 - 0x80) * 0x40 + (byteAt bs 2 - 0x80)
      if 0x10000 ≤ c ∧ c < 0x110000 then some (c, 3) else none
    else none
  else none

/-- Strict UTF-8 decoding (`bytes.decode('utf-8')`), one `utf8Step` per
code point; fails whenever Python's strict decoder raises. -/
def utf8Decode (l : List Nat) : Option (List Nat) :=
  match l with
  | [] => some []
  | b :: tl =>
    match utf8Step b tl with
    | some (c, k) => (utf8Decode (tl.drop k)).map (c :: ·)
    | none => none
termination_by l.length
decreasing_by simp [List.length_drop]; omega

/-! ### Scalar encoders (`struct.pack`, big-endian)

`struct.pack` raises on out-of-range input; the encoders below are used in
theorems only under the corresponding range hypotheses. -/

/-- `struct.pack('>I', n)` for `n < 2^32`. -/
def encodeU32 (n : Nat) : List Nat :=
  [n / 0x1000000 % 0x100, n / 0x10000 % 0x100, n / 0x100 % 0x100, n % 0x100]

/-- `struct.pack('>i', v)` for `-2^31 ≤ v < 2^31` (two's complement). -/
def encodeI32 (v : Int) : List Nat := encodeU32 (v % 0x100000000).toNat

/-- `struct.pack('>Q', n)` for `n < 2^64`. -/
def encodeU64 (n : Nat) : List Nat :=
  [n / 0x100000000000000 % 0x100, n / 0x1000000000000 % 0x100,
   n / 0x10000000000 % 0x100, n / 0x100000000 % 0x100,
   n / 0x1000000 % 0x100, n / 0x10000 % 0x100, n / 0x100 % 0x100, n % 0x100]

/-- `struct.pack('>B', n)` for `n < 256`. -/
def encodeU8 (n : Nat) : List Nat := [n % 0x100]

/-- `struct.pack('>?', b)`: one byte, 0 or 1. -/
def encodeBool (b : Bool) : List Nat := [if b then 1 else 0]

/-- `_encode_utf8_string`: 4-byte length + UTF-8 bytes; `None` is encoded
as the sentinel length 0xFFFFFFFF. -/
def encodeUtf8String : Option (List Nat) → List Nat
  | none => encodeU32 0xFFFFFFFF
  | some s => encodeU32 (utf8Encode s).length ++ utf8Encode s

/-- `_header`: magic, schema, message type, length-prefixed client id. -/
def header (msgType : Nat) (clientId : Option (List Nat)) : List Nat :=
  encodeU32 WSJTX_MAGIC ++ encodeU32 WSJTX_SCHEMA ++ encodeU32 msgType ++
    encodeUtf8String clientId

/-- `heartbeat`: type-0 message. -/
def heartbeat (clientId : Option (List Nat)) (maxSchema : Nat)
    (version revision : Option (List Nat)) : List Nat :=
  header 0 clientId ++ encodeU32 maxSchema ++ encodeUtf8String version ++
    encodeUtf8String revision

/-! ### Scalar decoders (`struct.unpack_from`)

`struct.unpack_from` raises `struct.error` when fewer than the needed bytes
remain at the offset. -/

/-- `struct.unpack_from('>I', data, off)`. -/
def unpackU32 (data : List Nat) (off : Nat) : PRes Nat :=
  if off + 4 ≤ data.length then
    .ok (byteAt data off * 0x1000000 + byteAt data (off + 1) * 0x10000 +
         byteAt data (off + 2) * 0x100 + byteAt data (off + 3))
  else .error .structError

/-- `struct.unpack_from('>i', data, off)`: signed reinterpretation. -/
def unpackI32 (data : List Nat) (off : Nat) : PRes Int :=
  match unpackU32 data off with
  | .ok u => .ok (if 0x80000000 ≤ u then (u : Int) - 0x100000000 else (u : Int))
  | .error e => .error e

/-- `struct.unpack_from('>Q', data, off)` (8 bytes big-endian); also used
for `'>d'`, with the IEEE-754 double modelled by its 64-bit pattern. -/
def unpackU64 (data : List Nat) (off : Nat) : PRes Nat :=
  if off + 8 ≤ data.length then
    .ok (byteAt data off * 0x100000000000000 + byteAt data (off + 1) * 0x1000000000000 +
         byteAt data (off + 2) * 0x10000000000 + byteAt data (off + 3) * 0x100000000 +
         byteAt data (off + 4) * 0x1000000 + byteAt data (off + 5) * 0x10000 +
         byteAt data (off + 6) * 0x100 + byteAt data (off + 7))
  else .error .structError

/-- `struct.unpack_from('>B', data, off)`. -/
def unpackU8 (data : List Nat) (off : Nat) : PRes Nat :=
  if off + 1 ≤ data.length then .ok (byteAt data off) else .error .structError

/-- `struct.unpack_from('>?', data, off)`: any nonzero byte is `True`. -/
def unpackBool (data : List Nat) (off : Nat) : PRes Bool :=
  match unpackU8 data off with
  | .ok b => .ok (b != 0)
  | .error e => .error e

/-- Python slice `data[start : start + len]`. -/
def pySlice (data : List Nat) (start len : Nat) : List Nat :=
  (data.drop start).take len

/-- `_decode_utf8_string`: reads the 4-byte length, handles the null
sentinel, then slices and UTF-8-decodes.  A length prefix larger than the
remaining bytes silently truncates the slice; the offset is still advanced
by the full `length`.  An invalid UTF-8 body raises `UnicodeDecodeError`. -/
def decodeUtf8String (data : List Nat) (off : Nat) : PRes (Option (List Nat) × Nat) :=
  match unpackU32 data off with
  | .error e => .error e
  | .ok length =>
    if length = 0xFFFFFFFF then .ok (none, off + 4)
    else
      match utf8Decode (pySlice data (off + 4) length) with
      | some s => .ok (some s, off + 4 + length)
      | none => .error .unicodeDecodeError

/-- `_decode_quint32`: value plus advanced offset. -/
def decodeQuint32 (data : List Nat) (off : Nat) : PRes (Nat × Nat) :=
  match unpackU32 data off with
  | .ok v => .ok (v, off + 4)
  | .error e => .error e

/-- `_decode_qint32`. -/
def decodeQint32 (data : List Nat) (off : Nat) : PRes (Int × Nat) :=
  match unpackI32 data off with
  | .ok v => .ok (v, off + 4)
  | .error e => .error e

/-- `_decode_double` with the double modelled as its 64-bit pattern. -/
def decodeDouble (data : List Nat) (off : Nat) : PRes (Nat × Nat) :=
  match unpackU64 data off with
  | .ok v => .ok (v, off + 8)
  | .error e => .error e

/-- `_decode_quint8`. -/
def decodeQuint8 (data : List Nat) (off : Nat) : PRes (Nat × Nat) :=
  match unpackU8 data off with
  | .ok v => .ok (v, off + 1)
  | .error e => .error e

/-- `_decode_bool`. -/
def decodeBool (data : List Nat) (off : Nat) : PRes (Bool × Nat) :=
  match unpackBool data off with
  | .ok v => .ok (v, off + 1)
  | .error e => .error e

/-- `parse_header`: returns `none` when the datagram is shorter than 12
bytes or the magic mismatches, otherwise `(msg_type, client_id, offset)`.
Reading the client id can raise (uncaught here): `struct.error` when fewer
than 16 bytes remain for the length word, `UnicodeDecodeError` when the
string body is not valid UTF-8. -/
def parseHeader (data : List Nat) : PRes (Option (Nat × Option (List Nat) × Nat)) :=
  if data.length < 12 then .ok none
  else
    match unpackU32 data 0 with
    | .error e => .error e
    | .ok magic =>
      if magic ≠ WSJTX_MAGIC then .ok none
      else
        match unpackU32 data 4 with
        | .error e => .error e
        | .ok _schema =>
          match unpackU32 data 8 with
          | .error e => .error e
          | .ok msgType =>
            match decodeUtf8String data 12 with
            | .error e => .error e
            | .ok (clientId, off) => .ok (some (msgType, clientId, off))

/-- A decoded type-4 Reply message. `deltaTime` is the IEEE-754 double
modelled by its 64-bit big-endian bit pattern. -/
structure Reply where
  clientId : Option (List Nat)
  timeMs : Nat
  snr : Int
  deltaTime : Nat
  deltaFreq : Nat
  mode : Option (List Nat)
  message : Option (List Nat)
  lowConfidence : Bool
  modifiers : Nat
  deriving DecidableEq

/-- The body of `parse_reply`'s `try:` block: the eight field reads. -/
def parseReplyBody (data : List Nat) (clientId : Option (List Nat)) (off : Nat) :
    PRes Reply :=
  match decodeQuint32 data off with
  | .error e => .error e
  | .ok (timeMs, off) =>
    match decodeQint32 data off with
    | .error e => .error e
    | .ok (snr, off) =>
      match decodeDouble data off with
      | .error e => .error e
      | .ok (deltaTime, off) =>
        match decodeQuint32 data off with
        | .error e => .error e
        | .ok (deltaFreq, off) =>
          match decodeUtf8String data off with
          | .error e => .error e
          | .ok (mode, off) =>
            match decodeUtf8String data off with
            | .error e => .error e
            | .ok (message, off) =>
              match decodeBool data off with
              | .error e => .error e
              | .ok (lowConfidence, off) =>
                match decodeQuint8 data off with
                | .error e => .error e
                | .ok (modifiers, _off) =>
                  .ok { clientId, timeMs, snr, deltaTime, deltaFreq,
                        mode, message, lowConfidence, modifiers }

/-- `parse_reply`: header errors propagate; a non-type-4 frame or a `None`
header gives `None`; `struct.error` (and `IndexError`) raised inside the
body is caught and turned into `None`, but `UnicodeDecodeError` is not
listed in the `except` clause and escapes. -/
def parseReply (data : List Nat) : PRes (Option Reply) :=
  match parseHeader data with
  | .error e => .error e
  | .ok none => .ok none
  | .ok (some (msgType, clientId, off)) =>
    if msgType ≠ 4 then .ok none
    else
      match parseReplyBody data clientId off with
      | .ok r => .ok (some r)
      | .error .structError => .ok none
      | .error e => .error e

/-- A type-4 Reply frame assembled from the documented field encodings
(the spec's §4.1 record layout, built from the source's `_encode_*`
primitives): `time_ms:u32, snr:i32, delta_time:double, delta_freq:u32,
mode:string, message:string, low_confidence:bool, modifiers:u8` after the
common header. -/
def encodeReply (r : Reply) : List Nat :=
  header 4 r.clientId ++ encodeU32 r.timeMs ++ encodeI32 r.snr ++
    encodeU64 r.deltaTime ++ encodeU32 r.deltaFreq ++
    encodeUtf8String r.mode ++ encodeUtf8String r.message ++
    encodeBool r.lowConfidence ++ encodeU8 r.modifiers

/-- The in-range conditions under which Python can assemble a Reply frame
at all: every scalar fits its wire field and every string is encodable with
a length prefix below the null sentinel. -/
def WfStr (s : Option (List Nat)) : Prop :=
  match s with
  | none => True
  | some cps => ValidStr cps ∧ (utf8Encode cps).length < 0xFFFFFFFF

/-- Field bounds for a well-formed Reply. -/
def Reply.Wf (r : Reply) : Prop :=
  WfStr r.clientId ∧ r.timeMs < 2 ^ 32 ∧ -2 ^ 31 ≤ r.snr ∧ r.snr < 2 ^ 31 ∧
    r.deltaTime < 2 ^ 64 ∧ r.deltaFreq < 2 ^ 32 ∧ WfStr r.mode ∧
    WfStr r.message ∧ r.modifiers < 2 ^ 8

instance : (s : Option (List Nat)) → Decidable (WfStr s)
  | none => isTrue trivial
  | some cps => inferInstanceAs (Decidable (ValidStr cps ∧ (utf8Encode cps).length < 0xFFFFFFFF))

instance (r : Reply) : Decidable r.Wf := by unfold Reply.Wf; infer_instance

/-! ## Python string helpers

The strings these helpers meet (mode names, band names, callsigns) are
ASCII, for which `Char.toUpper`/`Char.toLower` agree with Python's
`str.upper`/`str.lower`. -/

/-- `str.upper()`. -/
def pyUpper (s : String) : String := ⟨s.data.map Char.toUpper⟩

/-- `str.lower()`. -/
def pyLower (s : String) : String := ⟨s.data.map Char.toLower⟩

/-- Python truthiness of an optional string: `None` and `''` are falsy. -/
def pyStrTruthy (s : Option String) : Bool :=
  match s with
  | none => false
  | some s => s ≠ ""

/-! ## Spot cache — `src/gtbridge.py`

Python dicts are embedded as functions `key → Option value`; `time.time()`
timestamps are exact rationals. -/

/-- The dynamic `activity` attribute.  The sources only ever assign the
tags 'SOTA' (sota.py) — and the spec's data model allows 'POTA' — both
nonempty strings, so a present tag is always Python-truthy; `none` models
the attribute being absent or `None`. -/
inductive Activity
  | POTA
  | SOTA
  deriving DecidableEq

/-- `DXSpot` (src/dxcluster.py) plus the dynamically attached `activity`
tag read via `getattr(spot, 'activity', None)`. -/
structure DXSpot where
  spotter : String
  freq_khz : ℚ
  dx_call : String
  comment : String
  time_utc : String
  mode : Option String := none
  snr : Option Int := none
  grid : Option String := none
  activity : Option Activity := none
  deriving DecidableEq, Inhabited

/-- One spot-cache entry: `{'spot', 'cluster_name', 'first_seen',
'last_updated'}`, plus `expired_at` once moved to the stale cache. -/
structure CacheEntry where
  spot : DXSpot
  cluster_name : String
  first_seen : ℚ
  last_updated : ℚ
  expired_at : Option ℚ := none
  deriving DecidableEq, Inhabited

/-- Cache key `(band, dx_call)`. -/
abbrev SpotKey := String × String

/-- A spot cache (`_spot_cache` / `_stale_cache`). -/
abbrev Cache := SpotKey → Option CacheEntry

/-- Dict assignment `cache[key] = e` on the function model. -/
def storeAt (cache : Cache) (key : SpotKey) (e : CacheEntry) : Cache :=
  fun k => if k = key then some e else cache k

/-- The cache-update portion of `GTBridge._on_spot` after the mode
inference step, taking the (possibly inference-tagged) spot: mode/band
filters, then insert-or-overwrite under the `(band, dx_call)` key with the
sticky activity tag. -/
def onSpotTagged (modeFilter bandFilter : List String) (cache : Cache)
    (spot1 : DXSpot) (clusterName : String) (now : ℚ) : Cache :=
  if modeFilter ≠ [] ∧ (¬ pyStrTruthy spot1.mode ∨
      pyUpper (spot1.mode.getD "") ∉ modeFilter) then cache
  else if (freqToBand spot1.freq_khz).isNone then cache
  else
    let band := (freqToBand spot1.freq_khz).getD ""
    if bandFilter ≠ [] ∧ pyLower band ∉ bandFilter then cache
    else
      let key : SpotKey := (band, spot1.dx_call)
      if (cache key).isSome then
        let entry := (cache key).getD default
        let spot2 := if spot1.activity.isNone ∧ entry.spot.activity.isSome then
            { spot1 with activity := entry.spot.activity }
          else spot1
        storeAt cache key
          { entry with
            spot := spot2
            cluster_name := clusterName
            last_updated := now }
      else
        storeAt cache key
          { spot := spot1
            cluster_name := clusterName
            first_seen := now
            last_updated := now
            expired_at := none }

/-- The cache-update portion of `GTBridge._on_spot` (src/gtbridge.py
lines 143-219): infer the mode when the spot carries none, then apply the
filters and the keyed cache update.  The QRZ grid enrichment, telnet
broadcast and UDP instance-registration side effects do not touch the
cache and are not modelled (the no-QRZ configuration leaves `spot.grid`
unchanged). -/
def onSpot (modeFilter bandFilter : List String) (region : Int) (cache : Cache)
    (spot0 : DXSpot) (clusterName : String) (now : ℚ) : Cache :=
  onSpotTagged modeFilter bandFilter cache
    (if pyStrTruthy spot0.mode then spot0
     else { spot0 with mode := inferMode spot0.freq_khz region })
    clusterName now

/-- The stale-purge test of `_flush_cycle`: an entry survives unless
`now - expired_at > stale_ttl`. -/
def purgeCheck (staleTtl now : ℚ) (e : CacheEntry) : Option CacheEntry :=
  if now - (e.expired_at.getD 0) > staleTtl then none else some e

/-- The cache-maintenance portion of `GTBridge._flush_cycle` (src/gtbridge.py
lines 234-255): entries older than `spot_ttl` move from the live cache to
the stale cache with `expired_at := now`, then stale entries older than the
grace period are purged (a just-moved entry is also purge-checked, with age
zero).  The egress (Status/Decode sends) does not touch the caches. -/
def flushCache (spotTtl staleTtl now : ℚ) (live stale : Cache) : Cache × Cache :=
  (fun k =>
    if (live k).isSome then
      let e := (live k).getD default
      if now - e.last_updated > spotTtl then none else some e
    else none,
   fun k =>
    if (live k).isSome ∧ now - ((live k).getD default).last_updated > spotTtl then
      purgeCheck staleTtl now { (live k).getD default with expired_at := some now }
    else if (stale k).isSome then purgeCheck staleTtl now ((stale k).getD default)
    else none)

/-- A sequence of flush cycles at the given times. -/
def flushFold (spotTtl staleTtl : ℚ) (times : List ℚ) (live stale : Cache) :
    Cache × Cache :=
  times.foldl (fun st t => flushCache spotTtl staleTtl t st.1 st.2) (live, stale)

/-- The click-to-tune lookup of `_handle_reply`:
`self._spot_cache.get(key) or self._stale_cache.get(key)`. -/
def cacheLookup (live stale : Cache) (key : SpotKey) : Option CacheEntry :=
  match live key with
  | some e => some e
  | none => stale key

/-! ## Click-reply routing — `GTBridge._handle_reply` (src/gtbridge.py) -/

/-- Python whitespace for `str.split()` (the characters occurring in this
protocol's messages). -/
def pyWs (c : Char) : Bool := c = ' ' ∨ c = '\t' ∨ c = '\n' ∨ c = '\r'

/-- Helper for `str.split()`: accumulate the current token (reversed). -/
def splitWsAux : List Char → List Char → List (List Char)
  | [], cur => if cur = [] then [] else [cur.reverse]
  | c :: rest, cur =>
    if pyWs c then
      if cur = [] then splitWsAux rest [] else cur.reverse :: splitWsAux rest []
    else splitWsAux rest (c :: cur)

/-- `str.split()` with no argument: split on whitespace runs, dropping
empty tokens. -/
def pySplit (s : String) : List String :=
  (splitWsAux s.data []).map (fun cs => ⟨cs⟩)

/-- `client_id.rsplit('-', 1)` guarded by `'-' in client_id`: split at the
final dash, `none` when there is no dash. -/
def rsplitLastDash (s : String) : Option (String × String) :=
  let cs := s.data
  if '-' ∈ cs then
    let modeCs := (cs.reverse.takeWhile (fun c => c ≠ '-')).reverse
    let bandCs := cs.take (cs.length - modeCs.length - 1)
    some (⟨bandCs⟩, ⟨modeCs⟩)
  else none

/-- Callsign extraction from the reply message's tokens: fewer than two
tokens drops the reply; the third token when token 1 (0-based) is POTA or
SOTA and a third exists; otherwise the second token. -/
def extractCall (parts : List String) : Option String :=
  if parts.length < 2 then none
  else if 3 ≤ parts.length ∧ (parts.getD 1 "" = "POTA" ∨ parts.getD 1 "" = "SOTA") then
    some (parts.getD 2 "")
  else some (parts.getD 1 "")

/-- The routing portion of `_handle_reply` (src/gtbridge.py lines 345-366):
from a decoded Reply's `message` and `client_id`, the cache key
`(band, dx_call)` and requested mode, or `none` when the reply is
dropped. -/
def handleReplyRoute (message clientId : String) : Option (String × String × String) :=
  match extractCall (pySplit message) with
  | none => none
  | some dxCall =>
    match rsplitLastDash clientId with
    | none => none
    | some (band, mode) => some (band, dxCall, mode)

/-! ## HTTP pollers — `src/pota.py` and `src/sota.py` -/

/-- One upstream parks record, with the fields `POTAFetcher._poll` reads.
`frequency` is the parsed `float(freq_str)` — `none` models a missing or
empty frequency string or one `float()` rejects; `activator` is modelled
already stripped of surrounding whitespace. -/
structure PotaRecord where
  spotId : Option Int
  activator : String
  frequency : Option ℚ
  mode : String
  grid4 : String
  reference : String
  spotTime : String
  deriving DecidableEq

/-- `'HHMM'` from an ISO timestamp: characters 11-15 with the colon
removed, or `'0000'` when too short. -/
def spotTimeHHMM (spotTime : String) : String :=
  let tcs := spotTime.data
  if 16 ≤ tcs.length then ⟨((tcs.drop 11).take 5).filter (fun c => c ≠ ':')⟩
  else "0000"

/-- `POTAFetcher._poll` after a successful fetch (src/pota.py lines 59-115):
dedup is keyed on the upstream `spotId` alone — `_seen` is a set of spot
ids with no timestamps and no `(freq, mode)` state — and afterwards `_seen`
is pruned to the ids present in this response.  Returns the delivered
spots and the new `_seen`.  (`spot.pota`/`spot.pota_ref` are dynamic
attributes distinct from `activity` and are not read by the cache.) -/
def potaPoll (seen : List Int) (records : List PotaRecord) :
    List DXSpot × List Int :=
  let step := fun (acc : List DXSpot × List Int × List Int) (s : PotaRecord) =>
    let (delivered, seenAcc, currentIds) := acc
    match s.spotId with
    | none => (delivered, seenAcc, currentIds)
    | some sid =>
      let currentIds := sid :: currentIds
      if sid ∈ seenAcc then (delivered, seenAcc, currentIds)
      else
        let call := pyUpper s.activator
        if call = "" ∨ s.frequency = none then (delivered, seenAcc, currentIds)
        else if pyUpper s.mode = "FT8" ∨ pyUpper s.mode = "FT4" then
          (delivered, seenAcc, currentIds)
        else
          let spot : DXSpot :=
            { spotter := "POTA", freq_khz := s.frequency.getD 0, dx_call := call,
              comment := s.reference, time_utc := spotTimeHHMM s.spotTime,
              mode := if pyUpper s.mode = "" then none else some (pyUpper s.mode),
              snr := none, grid := if s.grid4 = "" then none else some s.grid4,
              activity := none }
          (delivered ++ [spot], sid :: seenAcc, currentIds)
  let (delivered, seenAcc, currentIds) := records.foldl step ([], seen, [])
  (delivered, seenAcc.filter (fun k => k ∈ currentIds))

/-- One upstream summits record, with the fields `SOTAFetcher._poll` reads
after the per-callsign latest-spot aggregation.  `frequency` (MHz) is the
parsed `float(freq_str)` — `none` models a missing/empty frequency or one
`float()` rejects. -/
structure SotaRecord where
  frequency : Option ℚ
  mode : String
  associationCode : String
  summitCode : String
  comments : String
  timeStamp : String
  deriving DecidableEq

/-- `call -> (state_tuple, monotonic_ts)` — `SOTAFetcher._last_state`. -/
abbrev LastState := String → Option ((ℚ × String) × ℚ)

/-- Leading-substring test for `'QRT'`. -/
def startsQRT : List Char → Bool
  | 'Q' :: 'R' :: 'T' :: _ => true
  | _ => false

/-- `'QRT' in s` (substring containment). -/
def containsQRT : List Char → Bool
  | [] => false
  | c :: rest => startsQRT (c :: rest) || containsQRT rest

/-- `max(spot_ttl - 30, 60)` — `SOTAFetcher._refresh_interval`. -/
def sotaRefreshInterval (spotTtl : Int) : Int := max (spotTtl - 30) 60

/-- The per-record body of `SOTAFetcher._poll`'s delivery loop
(src/sota.py lines 134-198) for one aggregated `(call, record)` pair:
filters (missing/unparseable frequency, QRT comment, bogus frequency,
FT8/FT4 mode), then the dedup decision against `_last_state` — skip iff
the call has a previous state with the same `(freq_khz, mode)` tuple
delivered less than `refresh_interval` ago.  Returns the delivered spot
(if any), the updated `_last_state`, and whether `call` joined
`current_calls`.  `grids` is the summit-grid resolver
(`_get_summit_grid`'s cache/API, an external oracle). -/
def sotaProcessRecord (lastState : LastState) (refreshInterval now : ℚ)
    (grids : String → Option String) (call : String) (s : SotaRecord) :
    Option DXSpot × LastState × Bool :=
  if s.frequency.isNone then (none, lastState, false)
  else if containsQRT (pyUpper s.comments).data then (none, lastState, false)
  else
    let freqKhz := s.frequency.getD 0 * 1000
    if freqKhz < 1800 ∨ freqKhz > 450000 then (none, lastState, false)
    else
      let mode0 := pyUpper s.mode
      let mode := if mode0 = "OTHER" then "" else mode0
      if mode = "FT8" ∨ mode = "FT4" then (none, lastState, false)
      else
        let state := (freqKhz, mode)
        if (lastState call).isSome ∧ ((lastState call).getD ((0, ""), 0)).1 = state ∧
            now - ((lastState call).getD ((0, ""), 0)).2 < refreshInterval then
          (none, lastState, true)
        else
          let summitRef := s.associationCode ++ "/" ++ s.summitCode
          let spot : DXSpot :=
            { spotter := "SOTA", freq_khz := freqKhz, dx_call := call,
              comment := summitRef, time_utc := spotTimeHHMM s.timeStamp,
              mode := if mode = "" then none else some mode,
              snr := none, grid := grids summitRef, activity := some .SOTA }
          (some spot, fun c => if c = call then some (state, now) else lastState c, true)

/-- One step of `SOTAFetcher._poll`'s fold over the aggregated records:
append the delivered spot, thread `_last_state`, extend `current_calls`. -/
def sotaPollStep (refreshInterval now : ℚ) (grids : String → Option String)
    (acc : List DXSpot × LastState × List String) (cs : String × SotaRecord) :
    List DXSpot × LastState × List String :=
  let (d, st2, added) := sotaProcessRecord acc.2.1 refreshInterval now grids cs.1 cs.2
  (acc.1 ++ d.toList, st2, if added then cs.1 :: acc.2.2 else acc.2.2)

/-- `SOTAFetcher._poll` after the latest-spot aggregation: process each
`(call, record)` pair in order, then prune `_last_state` to the calls seen
in this poll (`current_calls`). -/
def sotaPoll (lastState : LastState) (refreshInterval now : ℚ)
    (grids : String → Option String) (records : List (String × SotaRecord)) :
    List DXSpot × LastState :=
  let r := records.foldl (sotaPollStep refreshInterval now grids) ([], lastState, [])
  (r.1, fun c => if c ∈ r.2.2 then r.2.1 c else none)

/-! ## Startup keyword binding — `GTBridge.run` vs the fetcher initializers -/

/-- Keyword parameters declared by `POTAFetcher.__init__` (src/pota.py
lines 25-27), besides `self`; there is no `**kwargs`. -/
def potaInitParams : List String :=
  ["on_spot", "poll_interval", "mode_filter", "band_filter"]

/-- Keyword parameters declared by `SOTAFetcher.__init__` (src/sota.py
lines 35-38), besides `self`. -/
def sotaInitParams : List String :=
  ["on_spot", "poll_interval", "mode_filter", "band_filter", "spot_ttl"]

/-- The keyword-argument names `GTBridge.run` passes when constructing
`POTAFetcher` (src/gtbridge.py lines 529-535); the names are fixed for
every configuration — only the values depend on the config. -/
def runPotaCallKwargs : List String :=
  ["on_spot", "poll_interval", "mode_filter", "band_filter", "spot_ttl"]

/-- The keyword-argument names `GTBridge.run` passes when constructing
`SOTAFetcher` (src/gtbridge.py lines 541-547). -/
def runSotaCallKwargs : List String :=
  ["on_spot", "poll_interval", "mode_filter", "band_filter", "spot_ttl"]

/-- Python keyword binding: a call raises `TypeError` exactly when it
passes a keyword the callee does not declare (no `**kwargs` anywhere
here). -/
def pyCallRaisesTypeError (declared passed : List String) : Bool :=
  passed.any (fun k => decide (k ∉ declared))

end GTB

/-! ## Theorems for claims C1 and C9 -/

unseal Rat.add in
/-- C1 — counterexample. The claim asserts `infer_mode(14080.0, 2) = "RTTY"`,
`infer_mode(7050.0, 2) = "CW"` and `infer_mode(14100.0, 2) = "SSB"`, but under
the documented consultation order 14080 and 7050 fall inside FT4 dial windows
(dials 14080 and 7047.5) and 14100 lies inside the region-2 RTTY sub-band
(14080, 14100), so the code returns "FT4", "FT4" and "RTTY" respectively. -/
theorem c1_infer_mode_s2_counterexample :
    GTB.inferMode 14080 2 ≠ some "RTTY" ∧
    GTB.inferMode 7050 2 ≠ some "CW" ∧
    GTB.inferMode 14100 2 ≠ some "SSB" := by
  decide

unseal Rat.add in
/-- C1 (amended) — for region 2 `infer_mode` returns: 14075.0 → "FT8",
14080.0 → "FT4" (FT4 dial window), 7050.0 → "FT4" (inside the 7047.5 FT4
dial window), 14100.0 → "RTTY" (inside the region-2 RTTY sub-band), and
13000.0 → null, under the documented consultation order. -/
theorem c1_infer_mode_s2_amended :
    GTB.inferMode 14075 2 = some "FT8" ∧
    GTB.inferMode 14080 2 = some "FT4" ∧
    GTB.inferMode 7050 2 = some "FT4" ∧
    GTB.inferMode 14100 2 = some "RTTY" ∧
    GTB.inferMode 13000 2 = none := by
  decide

unseal Rat.add in
/-- C9 — for every dial frequency D in the documented FT8 and FT4 dial
lists, `infer_mode(D + 1.5, 2)` is either "FT8" or "FT4". -/
theorem c9_dial_midpoint_digital :
    ∀ d ∈ GTB.FT8_DIAL ++ GTB.FT4_DIAL,
      GTB.inferMode (d + mkRat 3 2) 2 = some "FT8" ∨ GTB.inferMode (d + mkRat 3 2) 2 = some "FT4" := by
  decide

/-- C9 — witness: the theorem applied to the concrete dial 14074 (an FT8
dial) from the documented lists. -/
theorem c9_dial_midpoint_digital_witness :
    GTB.inferMode (14074 + mkRat 3 2) 2 = some "FT8" ∨ GTB.inferMode (14074 + mkRat 3 2) 2 = some "FT4" :=
  c9_dial_midpoint_digital 14074 (by decide)

/-! ## Wire-codec round-trip lemmas -/

namespace GTB

theorem byteAt_drop {data rest : List Nat} {off : Nat}
    (h : data.drop off = rest) (i : Nat) : byteAt data (off + i) = byteAt rest i := by
  unfold byteAt
  rw [List.getD_eq_getElem?_getD, List.getD_eq_getElem?_getD, ← h, List.getElem?_drop]

/-- When the tail at `off` is `chunk ++ rest`, the data is long enough for
the chunk and dropping past it lands exactly on `rest`. -/
theorem drop_chunk {data chunk rest : List Nat} {off : Nat}
    (hoff : off ≤ data.length) (h : data.drop off = chunk ++ rest) :
    off + chunk.length ≤ data.length ∧ data.drop (off + chunk.length) = rest := by
  have hlen : data.length - off = chunk.length + rest.length := by
    have hh := congrArg List.length h
    simpa [List.length_drop] using hh
  refine ⟨by omega, ?_⟩
  have h2 : data.drop (off + chunk.length) = (data.drop off).drop chunk.length := by
    rw [List.drop_drop, Nat.add_comm]
  rw [h2, h, List.drop_left]

theorem byteAt_cons_zero (a : Nat) (l : List Nat) : GTB.byteAt (a :: l) 0 = a := rfl

theorem byteAt_cons_one (a b : Nat) (l : List Nat) : GTB.byteAt (a :: b :: l) 1 = b := rfl

theorem byteAt_cons_two (a b c : Nat) (l : List Nat) : GTB.byteAt (a :: b :: c :: l) 2 = c := rfl

theorem utf8Decode_encodeChar_append (c : Nat) (hc : GTB.ValidCp c) (bs : List Nat) :
    utf8Decode (utf8EncodeChar c ++ bs) = (utf8Decode bs).map (c :: ·) := by
  obtain ⟨h1, h2⟩ := hc
  unfold utf8EncodeChar
  by_cases hA : c < 0x80
  · rw [if_pos hA]
    show utf8Decode (c :: bs) = _
    have hs : utf8Step c bs = some (c, 0) := by rw [utf8Step, if_pos hA]
    rw [utf8Decode, hs]
    simp
  · rw [if_neg hA]
    have gA : ¬ (0xC0 + c / 0x40 < 0x80) := by omega
    by_cases hB : c < 0x800
    · rw [if_pos hB]
      show utf8Decode ((0xC0 + c / 0x40) :: (0x80 + c % 0x40) :: bs) = _
      have g1 : ¬ (0xC0 + c / 0x40 < 0x80) := by omega
      have g2 : ¬ (0xC0 + c / 0x40 < 0xC2) := by omega
      have g3 : 0xC0 + c / 0x40 < 0xE0 := by omega
      have g4 : 1 ≤ ((0x80 + c % 0x40) :: bs).length ∧
          0x80 ≤ GTB.byteAt ((0x80 + c % 0x40) :: bs) 0 ∧
          GTB.byteAt ((0x80 + c % 0x40) :: bs) 0 < 0xC0 :=
        ⟨by simp, by rw [byteAt_cons_zero]; omega, by rw [byteAt_cons_zero]; omega⟩
      have g5 : (0xC0 + c / 0x40 - 0xC0) * 0x40 + (0x80 + c % 0x40 - 0x80) = c := by omega
      have hs : utf8Step (0xC0 + c / 0x40) ((0x80 + c % 0x40) :: bs) = some (c, 1) := by
        rw [utf8Step, if_neg g1, if_neg g2, if_pos g3, if_pos g4]
        show some ((0xC0 + c / 0x40 - 0xC0) * 0x40 + (0x80 + c % 0x40 - 0x80), 1) = some (c, 1)
        rw [g5]
      rw [utf8Decode, hs]
      simp
    · rw [if_neg hB]
      by_cases hC : c < 0x10000
      · rw [if_pos hC]
        show utf8Decode ((0xE0 + c / 0x1000) :: (0x80 + c / 0x40 % 0x40) ::
          (0x80 + c % 0x40) :: bs) = _
        have g1 : ¬ (0xE0 + c / 0x1000 < 0x80) := by omega
        have g2 : ¬ (0xE0 + c / 0x1000 < 0xC2) := by omega
        have g3 : ¬ (0xE0 + c / 0x1000 < 0xE0) := by omega
        have g4 : 0xE0 + c / 0x1000 < 0xF0 := by omega
        have g5 : 2 ≤ ((0x80 + c / 0x40 % 0x40) :: (0x80 + c % 0x40) :: bs).length ∧
            0x80 ≤ GTB.byteAt ((0x80 + c / 0x40 % 0x40) :: (0x80 + c % 0x40) :: bs) 0 ∧
            GTB.byteAt ((0x80 + c / 0x40 % 0x40) :: (0x80 + c % 0x40) :: bs) 0 < 0xC0 ∧
            0x80 ≤ GTB.byteAt ((0x80 + c / 0x40 % 0x40) :: (0x80 + c % 0x40) :: bs) 1 ∧
            GTB.byteAt ((0x80 + c / 0x40 % 0x40) :: (0x80 + c % 0x40) :: bs) 1 < 0xC0 :=
          ⟨by simp, by rw [byteAt_cons_zero]; omega, by rw [byteAt_cons_zero]; omega,
           by rw [byteAt_cons_one]; omega, by rw [byteAt_cons_one]; omega⟩
        have g6 : (0xE0 + c / 0x1000 - 0xE0) * 0x1000 +
            (0x80 + c / 0x40 % 0x40 - 0x80) * 0x40 + (0x80 + c % 0x40 - 0x80) = c := by omega
        have g7 : 0x800 ≤ c ∧ (c < 0xD800 ∨ 0xDFFF < c) := ⟨by omega, h2⟩
        have hs : utf8Step (0xE0 + c / 0x1000)
            ((0x80 + c / 0x40 % 0x40) :: (0x80 + c % 0x40) :: bs) = some (c, 2) := by
          rw [utf8Step, if_neg g1, if_neg g2, if_neg g3, if_pos g4, if_pos g5]
          show (if 0x800 ≤ (0xE0 + c / 0x1000 - 0xE0) * 0x1000 +
                (0x80 + c / 0x40 % 0x40 - 0x80) * 0x40 + (0x80 + c % 0x40 - 0x80) ∧
              ((0xE0 + c / 0x1000 - 0xE0) * 0x1000 +
                (0x80 + c / 0x40 % 0x40 - 0x80) * 0x40 + (0x80 + c % 0x40 - 0x80) < 0xD800 ∨
               0xDFFF < (0xE0 + c / 0x1000 - 0xE0) * 0x1000 +
                (0x80 + c / 0x40 % 0x40 - 0x80) * 0x40 + (0x80 + c % 0x40 - 0x80)) then
              some ((0xE0 + c / 0x1000 - 0xE0) * 0x1000 +
                (0x80 + c / 0x40 % 0x40 - 0x80) * 0x40 + (0x80 + c % 0x40 - 0x80), 2)
            else none) = some (c, 2)
          rw [g6, if_pos g7]
        rw [utf8Decode, hs]
        simp
      · rw [if_neg hC]
        show utf8Decode ((0xF0 + c / 0x40000) :: (0x80 + c / 0x1000 % 0x40) ::
          (0x80 + c / 0x40 % 0x40) :: (0x80 + c % 0x40) :: bs) = _
        have g1 : ¬ (0xF0 + c / 0x40000 < 0x80) := by omega
        have g2 : ¬ (0xF0 + c / 0x40000 < 0xC2) := by omega
        have g3 : ¬ (0xF0 + c / 0x40000 < 0xE0) := by omega
        have g4 : ¬ (0xF0 + c / 0x40000 < 0xF0) := by omega
        have g5 : 0xF0 + c / 0x40000 < 0xF5 := by omega
        have g6 : 3 ≤ ((0x80 + c / 0x1000 % 0x40) :: (0x80 + c / 0x40 % 0x40) ::
              (0x80 + c % 0x40) :: bs).length ∧
            0x80 ≤ GTB.byteAt ((0x80 + c / 0x1000 % 0x40) :: (0x80 + c / 0x40 % 0x40) ::
              (0x80 + c % 0x40) :: bs) 0 ∧
            GTB.byteAt ((0x80 + c / 0x1000 % 0x40) :: (0x80 + c / 0x40 % 0x40) ::
              (0x80 + c % 0x40) :: bs) 0 < 0xC0 ∧
            0x80 ≤ GTB.byteAt ((0x80 + c / 0x1000 % 0x40) :: (0x80 + c / 0x40 % 0x40) ::
              (0x80 + c % 0x40) :: bs) 1 ∧
            GTB.byteAt ((0x80 + c / 0x1000 % 0x40) :: (0x80 + c / 0x40 % 0x40) ::
              (0x80 + c % 0x40) :: bs) 1 < 0xC0 ∧
            0x80 ≤ GTB.byteAt ((0x80 + c / 0x1000 % 0x40) :: (0x80 + c / 0x40 % 0x40) ::
              (0x80 + c % 0x40) :: bs) 2 ∧
            GTB.byteAt ((0x80 + c / 0x1000 % 0x40) :: (0x80 + c / 0x40 % 0x40) ::
              (0x80 + c % 0x40) :: bs) 2 < 0xC0 :=
          ⟨by simp, by rw [byteAt_cons_zero]; omega, by rw [byteAt_cons_zero]; omega,
           by rw [byteAt_cons_one]; omega, by rw [byteAt_cons_one]; omega,
           by rw [byteAt_cons_two]; omega, by rw [byteAt_cons_two]; omega⟩
        have g7 : (0xF0 + c / 0x40000 - 0xF0) * 0x40000 +
            (0x80 + c / 0x1000 % 0x40 - 0x80) * 0x1000 +
            (0x80 + c / 0x40 % 0x40 - 0x80) * 0x40 + (0x80 + c % 0x40 - 0x80) = c := by omega
        have g8 : 0x10000 ≤ c ∧ c < 0x110000 := ⟨by omega, h1⟩
        have hs : utf8Step (0xF0 + c / 0x40000) ((0x80 + c / 0x1000 % 0x40) ::
            (0x80 + c / 0x40 % 0x40) :: (0x80 + c % 0x40) :: bs) = some (c, 3) := by
          rw [utf8Step, if_neg g1, if_neg g2, if_neg g3, if_neg g4, if_pos g5, if_pos g6]
          show (if 0x10000 ≤ (0xF0 + c / 0x40000 - 0xF0) * 0x40000 +
                (0x80 + c / 0x1000 % 0x40 - 0x80) * 0x1000 +
                (0x80 + c / 0x40 % 0x40 - 0x80) * 0x40 + (0x80 + c % 0x40 - 0x80) ∧
              (0xF0 + c / 0x40000 - 0xF0) * 0x40000 +
                (0x80 + c / 0x1000 % 0x40 - 0x80) * 0x1000 +
                (0x80 + c / 0x40 % 0x40 - 0x80) * 0x40 + (0x80 + c % 0x40 - 0x80) < 0x110000 then
              some ((0xF0 + c / 0x40000 - 0xF0) * 0x40000 +
                (0x80 + c / 0x1000 % 0x40 - 0x80) * 0x1000 +
                (0x80 + c / 0x40 % 0x40 - 0x80) * 0x40 + (0x80 + c % 0x40 - 0x80), 3)
            else none) = some (c, 3)
          rw [g7, if_pos g8]
        rw [utf8Decode, hs]
        simp

/-- Python's strict UTF-8 decode inverts encode on every encodable string. -/
theorem utf8Decode_encode (s : List Nat) (hv : GTB.ValidStr s) :
    utf8Decode (utf8Encode s) = some s := by
  induction s with
  | nil => simp [utf8Encode, utf8Decode]
  | cons c s ih =>
    have hc : GTB.ValidCp c := hv c (by simp)
    have hs : GTB.ValidStr s := fun x hx => hv x (by simp [hx])
    have e : utf8Encode (c :: s) = utf8EncodeChar c ++ utf8Encode s := by
      simp [utf8Encode]
    rw [e, utf8Decode_encodeChar_append c hc, ih hs]
    rfl

end GTB

namespace GTB

theorem unpackU32_spec {data rest : List Nat} {off n : Nat}
    (hoff : off ≤ data.length) (h : data.drop off = encodeU32 n ++ rest)
    (hn : n < 2 ^ 32) :
    unpackU32 data off = .ok n ∧ off + 4 ≤ data.length ∧ data.drop (off + 4) = rest := by
  obtain ⟨hle0, hdrop0⟩ := drop_chunk hoff h
  have hle : off + 4 ≤ data.length := hle0
  have hdrop : data.drop (off + 4) = rest := hdrop0
  refine ⟨?_, hle, hdrop⟩
  have b0 := byteAt_drop h 0
  have b1 := byteAt_drop h 1
  have b2 := byteAt_drop h 2
  have b3 := byteAt_drop h 3
  rw [Nat.add_zero] at b0
  rw [unpackU32, if_pos hle, b0, b1, b2, b3]
  show Except.ok (n / 0x1000000 % 0x100 * 0x1000000 + n / 0x10000 % 0x100 * 0x10000 +
    n / 0x100 % 0x100 * 0x100 + n % 0x100) = Except.ok n
  have e : n / 0x1000000 % 0x100 * 0x1000000 + n / 0x10000 % 0x100 * 0x10000 +
      n / 0x100 % 0x100 * 0x100 + n % 0x100 = n := by omega
  rw [e]

theorem unpackU64_spec {data rest : List Nat} {off n : Nat}
    (hoff : off ≤ data.length) (h : data.drop off = encodeU64 n ++ rest)
    (hn : n < 2 ^ 64) :
    unpackU64 data off = .ok n ∧ off + 8 ≤ data.length ∧ data.drop (off + 8) = rest := by
  obtain ⟨hle0, hdrop0⟩ := drop_chunk hoff h
  have hle : off + 8 ≤ data.length := hle0
  have hdrop : data.drop (off + 8) = rest := hdrop0
  refine ⟨?_, hle, hdrop⟩
  have b0 := byteAt_drop h 0
  have b1 := byteAt_drop h 1
  have b2 := byteAt_drop h 2
  have b3 := byteAt_drop h 3
  have b4 := byteAt_drop h 4
  have b5 := byteAt_drop h 5
  have b6 := byteAt_drop h 6
  have b7 := byteAt_drop h 7
  rw [Nat.add_zero] at b0
  rw [unpackU64, if_pos hle, b0, b1, b2, b3, b4, b5, b6, b7]
  show Except.ok (n / 0x100000000000000 % 0x100 * 0x100000000000000 +
    n / 0x1000000000000 % 0x100 * 0x1000000000000 +
    n / 0x10000000000 % 0x100 * 0x10000000000 + n / 0x100000000 % 0x100 * 0x100000000 +
    n / 0x1000000 % 0x100 * 0x1000000 + n / 0x10000 % 0x100 * 0x10000 +
    n / 0x100 % 0x100 * 0x100 + n % 0x100) = Except.ok n
  have e : n / 0x100000000000000 % 0x100 * 0x100000000000000 +
      n / 0x1000000000000 % 0x100 * 0x1000000000000 +
      n / 0x10000000000 % 0x100 * 0x10000000000 + n / 0x100000000 % 0x100 * 0x100000000 +
      n / 0x1000000 % 0x100 * 0x1000000 + n / 0x10000 % 0x100 * 0x10000 +
      n / 0x100 % 0x100 * 0x100 + n % 0x100 = n := by omega
  rw [e]

theorem unpackU8_spec {data rest : List Nat} {off n : Nat}
    (hoff : off ≤ data.length) (h : data.drop off = encodeU8 n ++ rest)
    (hn : n < 2 ^ 8) :
    unpackU8 data off = .ok n ∧ off + 1 ≤ data.length ∧ data.drop (off + 1) = rest := by
  obtain ⟨hle0, hdrop0⟩ := drop_chunk hoff h
  have hle : off + 1 ≤ data.length := hle0
  have hdrop : data.drop (off + 1) = rest := hdrop0
  refine ⟨?_, hle, hdrop⟩
  have b0 := byteAt_drop h 0
  rw [Nat.add_zero] at b0
  rw [unpackU8, if_pos hle, b0]
  show Except.ok (n % 0x100) = Except.ok n
  have e : n % 0x100 = n := by omega
  rw [e]

theorem unpackI32_spec {data rest : List Nat} {off : Nat} {v : Int}
    (hoff : off ≤ data.length) (h : data.drop off = encodeI32 v ++ rest)
    (hlo : -2 ^ 31 ≤ v) (hhi : v < 2 ^ 31) :
    unpackI32 data off = .ok v ∧ off + 4 ≤ data.length ∧ data.drop (off + 4) = rest := by
  have hn : (v % 0x100000000).toNat < 2 ^ 32 := by omega
  obtain ⟨h1, h2, h3⟩ := unpackU32_spec hoff h hn
  refine ⟨?_, h2, h3⟩
  rw [unpackI32, h1]
  show Except.ok (if 0x80000000 ≤ (v % 0x100000000).toNat then
    ((v % 0x100000000).toNat : Int) - 0x100000000 else ((v % 0x100000000).toNat : Int)) =
    Except.ok v
  by_cases hc : 0x80000000 ≤ (v % 0x100000000).toNat
  · rw [if_pos hc]
    have e : ((v % 0x100000000).toNat : Int) - 0x100000000 = v := by omega
    rw [e]
  · rw [if_neg hc]
    have e : ((v % 0x100000000).toNat : Int) = v := by omega
    rw [e]

theorem unpackBool_spec {data rest : List Nat} {off : Nat} {b : Bool}
    (hoff : off ≤ data.length) (h : data.drop off = encodeBool b ++ rest) :
    unpackBool data off = .ok b ∧ off + 1 ≤ data.length ∧ data.drop (off + 1) = rest := by
  have h8 : data.drop off = encodeU8 (if b then 1 else 0) ++ rest := by
    cases b <;> exact h
  obtain ⟨h1, h2, h3⟩ := unpackU8_spec hoff h8 (by cases b <;> decide)
  refine ⟨?_, h2, h3⟩
  rw [unpackBool, h1]
  cases b <;> rfl

theorem decodeQuint32_spec {data rest : List Nat} {off n : Nat}
    (hoff : off ≤ data.length) (h : data.drop off = encodeU32 n ++ rest)
    (hn : n < 2 ^ 32) :
    decodeQuint32 data off = .ok (n, off + 4) ∧ off + 4 ≤ data.length ∧
      data.drop (off + 4) = rest := by
  obtain ⟨h1, h2, h3⟩ := unpackU32_spec hoff h hn
  exact ⟨by rw [decodeQuint32, h1], h2, h3⟩

theorem decodeQint32_spec {data rest : List Nat} {off : Nat} {v : Int}
    (hoff : off ≤ data.length) (h : data.drop off = encodeI32 v ++ rest)
    (hlo : -2 ^ 31 ≤ v) (hhi : v < 2 ^ 31) :
    decodeQint32 data off = .ok (v, off + 4) ∧ off + 4 ≤ data.length ∧
      data.drop (off + 4) = rest := by
  obtain ⟨h1, h2, h3⟩ := unpackI32_spec hoff h hlo hhi
  exact ⟨by rw [decodeQint32, h1], h2, h3⟩

theorem decodeDouble_spec {data rest : List Nat} {off n : Nat}
    (hoff : off ≤ data.length) (h : data.drop off = encodeU64 n ++ rest)
    (hn : n < 2 ^ 64) :
    decodeDouble data off = .ok (n, off + 8) ∧ off + 8 ≤ data.length ∧
      data.drop (off + 8) = rest := by
  obtain ⟨h1, h2, h3⟩ := unpackU64_spec hoff h hn
  exact ⟨by rw [decodeDouble, h1], h2, h3⟩

theorem decodeQuint8_spec {data rest : List Nat} {off n : Nat}
    (hoff : off ≤ data.length) (h : data.drop off = encodeU8 n ++ rest)
    (hn : n < 2 ^ 8) :
    decodeQuint8 data off = .ok (n, off + 1) ∧ off + 1 ≤ data.length ∧
      data.drop (off + 1) = rest := by
  obtain ⟨h1, h2, h3⟩ := unpackU8_spec hoff h hn
  exact ⟨by rw [decodeQuint8, h1], h2, h3⟩

theorem decodeBool_spec {data rest : List Nat} {off : Nat} {b : Bool}
    (hoff : off ≤ data.length) (h : data.drop off = encodeBool b ++ rest) :
    decodeBool data off = .ok (b, off + 1) ∧ off + 1 ≤ data.length ∧
      data.drop (off + 1) = rest := by
  obtain ⟨h1, h2, h3⟩ := unpackBool_spec hoff h
  exact ⟨by rw [decodeBool, h1], h2, h3⟩

theorem decodeUtf8String_spec {data rest : List Nat} {off : Nat} {s : Option (List Nat)}
    (hoff : off ≤ data.length) (h : data.drop off = encodeUtf8String s ++ rest)
    (hs : WfStr s) :
    ∃ off2, decodeUtf8String data off = .ok (s, off2) ∧ off2 ≤ data.length ∧
      data.drop off2 = rest := by
  cases s with
  | none =>
    obtain ⟨h1, h2, h3⟩ := unpackU32_spec hoff h (by norm_num)
    refine ⟨off + 4, ?_, h2, h3⟩
    rw [decodeUtf8String, h1]
    rfl
  | some str =>
    obtain ⟨hv, hlen⟩ := hs
    have h' : data.drop off = encodeU32 (utf8Encode str).length ++ (utf8Encode str ++ rest) := by
      rw [h]
      show (encodeU32 (utf8Encode str).length ++ utf8Encode str) ++ rest = _
      rw [List.append_assoc]
    obtain ⟨h1, h2, h3⟩ := unpackU32_spec hoff h' (by omega)
    obtain ⟨h4, h5⟩ := drop_chunk h2 h3
    refine ⟨off + 4 + (utf8Encode str).length, ?_, h4, h5⟩
    have hsl : pySlice data (off + 4) (utf8Encode str).length = utf8Encode str := by
      rw [pySlice, h3, List.take_left]
    rw [decodeUtf8String, h1]
    show (if (utf8Encode str).length = 0xFFFFFFFF then Except.ok (none, off + 4)
      else
        match utf8Decode (pySlice data (off + 4) (utf8Encode str).length) with
        | some s => Except.ok (some s, off + 4 + (utf8Encode str).length)
        | none => Except.error PyExc.unicodeDecodeError) =
      Except.ok (some str, off + 4 + (utf8Encode str).length)
    rw [if_neg (by omega), hsl, utf8Decode_encode str hv]

end GTB

namespace GTB

theorem parseHeader_spec {t : Nat} {cid : Option (List Nat)} {rest : List Nat}
    (ht : t < 2 ^ 32) (hcid : WfStr cid) :
    ∃ off, parseHeader (header t cid ++ rest) = .ok (some (t, cid, off)) ∧
      off ≤ (header t cid ++ rest).length ∧ (header t cid ++ rest).drop off = rest := by
  have h0 : (header t cid ++ rest).drop 0 = encodeU32 WSJTX_MAGIC ++
      (encodeU32 WSJTX_SCHEMA ++ (encodeU32 t ++ (encodeUtf8String cid ++ rest))) := by
    rw [List.drop_zero, header]
    simp [List.append_assoc]
  obtain ⟨m1, m2, m3⟩ := unpackU32_spec (Nat.zero_le _) h0 (by norm_num [WSJTX_MAGIC])
  have m2' : 4 ≤ (header t cid ++ rest).length := m2
  have m3' : (header t cid ++ rest).drop 4 = encodeU32 WSJTX_SCHEMA ++
      (encodeU32 t ++ (encodeUtf8String cid ++ rest)) := m3
  obtain ⟨s1, s2, s3⟩ := unpackU32_spec m2' m3' (by norm_num [WSJTX_SCHEMA])
  have s2' : 8 ≤ (header t cid ++ rest).length := s2
  have s3' : (header t cid ++ rest).drop 8 =
      encodeU32 t ++ (encodeUtf8String cid ++ rest) := s3
  obtain ⟨t1, t2, t3⟩ := unpackU32_spec s2' s3' ht
  have t2' : 12 ≤ (header t cid ++ rest).length := t2
  have t3' : (header t cid ++ rest).drop 12 = encodeUtf8String cid ++ rest := t3
  obtain ⟨off2, u1, u2, u3⟩ := decodeUtf8String_spec t2' t3' hcid
  refine ⟨off2, ?_, u2, u3⟩
  rw [parseHeader, if_neg (by omega), m1, s1, t1, u1]
  rfl

theorem parseReply_encode (r : Reply) (hr : r.Wf) :
    parseReply (encodeReply r) = .ok (some r) := by
  obtain ⟨hcid, htm, hsl, hsh, hdt, hdf, hm, hmsg, hmod⟩ := hr
  have e : encodeReply r = header 4 r.clientId ++ (encodeU32 r.timeMs ++ (encodeI32 r.snr ++
      (encodeU64 r.deltaTime ++ (encodeU32 r.deltaFreq ++ (encodeUtf8String r.mode ++
      (encodeUtf8String r.message ++ (encodeBool r.lowConfidence ++
        encodeU8 r.modifiers))))))) := by
    rw [encodeReply]
    simp [List.append_assoc]
  rw [e]
  obtain ⟨off, hph, hoffle, hdrop⟩ := @parseHeader_spec 4 r.clientId _ (by norm_num) hcid
  obtain ⟨q1, q2, q3⟩ := decodeQuint32_spec hoffle hdrop htm
  obtain ⟨w1, w2, w3⟩ := decodeQint32_spec q2 q3 hsl hsh
  obtain ⟨d1, d2, d3⟩ := decodeDouble_spec w2 w3 hdt
  obtain ⟨f1, f2, f3⟩ := decodeQuint32_spec d2 d3 hdf
  obtain ⟨mo, m1, m2, m3⟩ := decodeUtf8String_spec f2 f3 hm
  obtain ⟨ms, g1, g2, g3⟩ := decodeUtf8String_spec m2 m3 hmsg
  obtain ⟨b1, b2, b3⟩ := decodeBool_spec g2 g3
  have b3' : (header 4 r.clientId ++ (encodeU32 r.timeMs ++ (encodeI32 r.snr ++
      (encodeU64 r.deltaTime ++ (encodeU32 r.deltaFreq ++ (encodeUtf8String r.mode ++
      (encodeUtf8String r.message ++ (encodeBool r.lowConfidence ++
        encodeU8 r.modifiers)))))))).drop (ms + 1) = encodeU8 r.modifiers ++ [] := by
    rw [List.append_nil]
    exact b3
  obtain ⟨u1, u2, u3⟩ := decodeQuint8_spec b2 b3' hmod
  rw [parseReply, hph]
  show (if (4 : Nat) ≠ 4 then Except.ok none else
    match parseReplyBody _ r.clientId off with
    | .ok r' => .ok (some r')
    | .error .structError => .ok none
    | .error e => .error e) = Except.ok (some r)
  rw [if_neg (by omega)]
  simp only [parseReplyBody, q1, w1, d1, f1, m1, g1, b1, u1]

end GTB

/-! ## Theorems for claims C2, C5, C6 -/

/-- C2 — counterexample. The claim says the decoders never fail by raising
an unhandled exception on truncated payloads, but a 12-byte datagram with
valid magic makes `parse_header` (and hence `parse_reply`) call
`struct.unpack_from` at offset 12 with no bytes left, raising an uncaught
`struct.error`; the claim is false as stated. -/
theorem c2_decoder_counterexample :
    GTB.parseHeader [0xAD, 0xBC, 0xCB, 0xDA, 0, 0, 0, 2, 0, 0, 0, 0] =
      .error .structError ∧
    GTB.parseReply [0xAD, 0xBC, 0xCB, 0xDA, 0, 0, 0, 2, 0, 0, 0, 4] =
      .error .structError := by
  constructor <;> rfl

/-- C2 (amended) — `parse_header` and `parse_reply` return `None` (never
raise) whenever the input is shorter than 12 bytes or the magic word
mismatches.  On truncated payloads they can instead raise: `struct.error`
when the header's string-length word is cut short and `UnicodeDecodeError`
when a string body is truncated mid-character (a length prefix exceeding
the remaining bytes otherwise silently truncates the string), and no
64 KiB frame-size limit is enforced anywhere. -/
theorem c2_decoder_amended (data : List Nat)
    (h : data.length < 12 ∨ GTB.unpackU32 data 0 ≠ .ok GTB.WSJTX_MAGIC) :
    GTB.parseHeader data = .ok none ∧ GTB.parseReply data = .ok none := by
  have hph : GTB.parseHeader data = .ok none := by
    by_cases hlen : data.length < 12
    · rw [GTB.parseHeader, if_pos hlen]
    · rcases h with h | hmagic
      · exact absurd h hlen
      · have hm : GTB.unpackU32 data 0 =
            .ok (GTB.byteAt data 0 * 0x1000000 + GTB.byteAt data 1 * 0x10000 +
                 GTB.byteAt data 2 * 0x100 + GTB.byteAt data 3) := by
          rw [GTB.unpackU32, if_pos (by omega)]
        have hne : GTB.byteAt data 0 * 0x1000000 + GTB.byteAt data 1 * 0x10000 +
            GTB.byteAt data 2 * 0x100 + GTB.byteAt data 3 ≠ GTB.WSJTX_MAGIC := by
          intro hEq
          exact hmagic (by rw [hm, hEq])
        rw [GTB.parseHeader, if_neg hlen, hm]
        show (if GTB.byteAt data 0 * 0x1000000 + GTB.byteAt data 1 * 0x10000 +
            GTB.byteAt data 2 * 0x100 + GTB.byteAt data 3 ≠ GTB.WSJTX_MAGIC then
            Except.ok none else _) = Except.ok none
        rw [if_pos hne]
  refine ⟨hph, ?_⟩
  rw [GTB.parseReply, hph]

/-- C2 — witness: the amended theorem applied to the empty datagram. -/
theorem c2_decoder_amended_witness :
    GTB.parseHeader [] = .ok none ∧ GTB.parseReply [] = .ok none :=
  c2_decoder_amended [] (Or.inl (by decide))

/-- C5 — `heartbeat(client_id="GTB", max_schema=3, version="2.6.1",
revision="")` produces exactly the claimed byte sequence: magic, schema 2,
type 0, then the three length-prefixed UTF-8 strings with the empty
revision encoded as length 0. -/
theorem c5_heartbeat_layout :
    GTB.heartbeat (some [71, 84, 66]) 3 (some [50, 46, 54, 46, 49]) (some []) =
      [0xAD, 0xBC, 0xCB, 0xDA, 0x00, 0x00, 0x00, 0x02, 0x00, 0x00, 0x00, 0x00,
       0x00, 0x00, 0x00, 0x03, 71, 84, 66,
       0x00, 0x00, 0x00, 0x03,
       0x00, 0x00, 0x00, 0x05, 50, 46, 54, 46, 49,
       0x00, 0x00, 0x00, 0x00] := by
  rfl

/-- C6 — encoder/decoder round-trip: `parse_header(header(t, id))` recovers
exactly `(t, id)` for every u32 type and every encodable client id
(including the null id via the 0xFFFFFFFF sentinel), and `parse_reply` on a
type-4 Reply frame assembled from the documented field encodings recovers
every field unchanged. -/
theorem c6_roundtrip :
    (∀ (t : Nat) (cid : Option (List Nat)), t < 2 ^ 32 → GTB.WfStr cid →
       ∃ off, GTB.parseHeader (GTB.header t cid) = .ok (some (t, cid, off))) ∧
    (∀ r : GTB.Reply, r.Wf → GTB.parseReply (GTB.encodeReply r) = .ok (some r)) := by
  constructor
  · intro t cid ht hcid
    obtain ⟨off, h1, _, _⟩ := @GTB.parseHeader_spec t cid [] ht hcid
    rw [List.append_nil] at h1
    exact ⟨off, h1⟩
  · exact GTB.parseReply_encode

/-- C6 — witness: the round trip applied to a concrete header
(type 4, client id "G") and a concrete Reply frame. -/
theorem c6_roundtrip_witness :
    (∃ off, GTB.parseHeader (GTB.header 4 (some [71])) = .ok (some (4, some [71], off))) ∧
    GTB.parseReply (GTB.encodeReply
      { clientId := some [52, 48], timeMs := 1, snr := -10, deltaTime := 0,
        deltaFreq := 7074000, mode := some [126], message := some [67, 81],
        lowConfidence := false, modifiers := 0 }) =
      .ok (some
        { clientId := some [52, 48], timeMs := 1, snr := -10, deltaTime := 0,
          deltaFreq := 7074000, mode := some [126], message := some [67, 81],
          lowConfidence := false, modifiers := 0 }) :=
  ⟨c6_roundtrip.1 4 (some [71]) (by decide) (by decide),
   c6_roundtrip.2 _ (by decide)⟩

/-! ## Theorems for claims C7, C8, C10 -/

namespace GTB

theorem storeAt_same (cache : Cache) (k : SpotKey) (e : CacheEntry) :
    storeAt cache k e k = some e := by
  simp [storeAt]

theorem storeAt_ne (cache : Cache) (k : SpotKey) (e : CacheEntry) (k2 : SpotKey)
    (h : k2 ≠ k) : storeAt cache k e k2 = cache k2 := by
  simp [storeAt, h]

/-- Sticky-activity for the post-inference update: whatever the arriving
spot is, an entry whose activity is non-null keeps a non-null activity. -/
theorem onSpotTagged_sticky (mf bf : List String) (cache : Cache) (s1 : DXSpot)
    (cn : String) (now : ℚ) (key : SpotKey) (e : CacheEntry) (a : Activity)
    (hce : cache key = some e) (hact : e.spot.activity = some a) :
    ∃ e2, onSpotTagged mf bf cache s1 cn now key = some e2 ∧
      e2.spot.activity ≠ none := by
  simp only [onSpotTagged]
  by_cases hf : mf ≠ [] ∧ (¬ pyStrTruthy s1.mode ∨ pyUpper (s1.mode.getD "") ∉ mf)
  · rw [if_pos hf]
    exact ⟨e, hce, by rw [hact]; simp⟩
  · rw [if_neg hf]
    by_cases hband : (freqToBand s1.freq_khz).isNone
    · rw [if_pos hband]
      exact ⟨e, hce, by rw [hact]; simp⟩
    · rw [if_neg hband]
      by_cases hbf : bf ≠ [] ∧ pyLower ((freqToBand s1.freq_khz).getD "") ∉ bf
      · rw [if_pos hbf]
        exact ⟨e, hce, by rw [hact]; simp⟩
      · rw [if_neg hbf]
        by_cases hcc : (cache ((freqToBand s1.freq_khz).getD "", s1.dx_call)).isSome
        · rw [if_pos hcc]
          by_cases hk : key = ((freqToBand s1.freq_khz).getD "", s1.dx_call)
          · subst hk
            have hent : (cache ((freqToBand s1.freq_khz).getD "",
                s1.dx_call)).getD default = e := by
              rw [hce]
              rfl
            refine ⟨_, storeAt_same _ _ _, ?_⟩
            rcases hs1 : s1.activity with _ | b <;> simp [hent, hs1, hact]
          · exact ⟨e, by rw [storeAt_ne _ _ _ _ hk]; exact hce, by rw [hact]; simp⟩
        · rw [if_neg hcc]
          by_cases hk : key = ((freqToBand s1.freq_khz).getD "", s1.dx_call)
          · subst hk
            rw [hce] at hcc
            exact absurd rfl hcc
          · exact ⟨e, by rw [storeAt_ne _ _ _ _ hk]; exact hce, by rw [hact]; simp⟩

end GTB

unseal Rat.add in
/-- C7 — sticky activity tag: once a live cache entry's activity is
non-null, no later arrival for the same key reverts it to null (an arrival
without a tag inherits the stored one; a tagged arrival overwrites with its
own non-null tag); in particular an arrival with activity=POTA followed by
an arrival with activity=null for (20m, K1ABC) leaves the stored entry with
activity=POTA. -/
theorem c7_sticky_activity :
    (∀ (modeFilter bandFilter : List String) (region : Int) (cache : GTB.Cache)
        (spot : GTB.DXSpot) (cn : String) (now : ℚ) (key : GTB.SpotKey)
        (e : GTB.CacheEntry) (a : GTB.Activity),
        cache key = some e → e.spot.activity = some a →
        ∃ e2, GTB.onSpot modeFilter bandFilter region cache spot cn now key = some e2 ∧
          e2.spot.activity ≠ none) ∧
    ((GTB.onSpot [] [] 2
        (GTB.onSpot [] [] 2 (fun _ => none)
          ⟨"P", 14074, "K1ABC", "", "0000", some "CW", none, none,
            some GTB.Activity.POTA⟩ "X" 0)
        ⟨"P", 14074, "K1ABC", "", "0000", some "CW", none, none, none⟩ "X" 1)
      ("20m", "K1ABC")).map (fun e => e.spot.activity) =
        some (some GTB.Activity.POTA) := by
  constructor
  · intro mf bf region cache spot cn now key e a hce hact
    rw [GTB.onSpot]
    exact GTB.onSpotTagged_sticky mf bf cache _ cn now key e a hce hact
  · decide

/-- C7 — witness: the sticky-update invariant applied to a one-entry cache
holding a POTA-tagged K1ABC entry hit by an untagged arrival. -/
theorem c7_sticky_activity_witness :
    ∃ e2, GTB.onSpot [] [] 2
        (fun k => if k = ("20m", "K1ABC") then
            some { spot := ⟨"P", 14074, "K1ABC", "", "0000", some "CW", none, none,
                     some GTB.Activity.POTA⟩,
                   cluster_name := "X", first_seen := 0, last_updated := 0,
                   expired_at := none }
          else none)
        ⟨"P", 14074, "K1ABC", "", "0000", some "CW", none, none, none⟩ "X" 1
        ("20m", "K1ABC") = some e2 ∧ e2.spot.activity ≠ none :=
  c7_sticky_activity.1 [] [] 2 _ _ "X" 1 ("20m", "K1ABC")
    { spot := ⟨"P", 14074, "K1ABC", "", "0000", some "CW", none, none,
        some GTB.Activity.POTA⟩,
      cluster_name := "X", first_seen := 0, last_updated := 0,
      expired_at := none }
    GTB.Activity.POTA (by decide) rfl

/-- C8 — counterexample. The claim routes any reply whose message does not
begin "CQ POTA/SOTA ..." through the second token, but the code never
checks the first token: for message "QRZ POTA K1ABC FN42" it extracts the
third token "K1ABC", not the second token "POTA". -/
theorem c8_route_counterexample :
    GTB.handleReplyRoute "QRZ POTA K1ABC FN42" "40m-CW" =
      some ("40m", "K1ABC", "CW") ∧ "K1ABC" ≠ "POTA" := by
  constructor
  · rfl
  · decide

/-- Auxiliary: `takeWhile` over a list whose first block satisfies the
predicate, followed by an element that does not. -/
theorem takeWhile_append_cons {α : Type} (p : α → Bool) (l1 : List α) (c : α)
    (l2 : List α) (h1 : ∀ x ∈ l1, p x = true) (hc : p c = false) :
    (l1 ++ c :: l2).takeWhile p = l1 := by
  induction l1 with
  | nil => simp [List.takeWhile_cons, hc]
  | cons a l ih =>
    have ha : p a = true := h1 a (by simp)
    simp [List.takeWhile_cons, ha, ih (fun x hx => h1 x (by simp [hx]))]

/-- C8 (amended) — the extracted callsign is the third token whenever the
second token is POTA or SOTA and a third token exists (regardless of the
first token), otherwise the second token; `(band, mode)` comes from
splitting the reply's client_id at its final '-'; and the S6 instance:
message "CQ POTA K1ABC FN42" with client_id "40m-CW" routes to cache key
("40m", "K1ABC") with requested mode "CW". -/
theorem c8_route_amended :
    (∀ (t0 c : String) (rest : List String) (act : String),
        (act = "POTA" ∨ act = "SOTA") →
        GTB.extractCall (t0 :: act :: c :: rest) = some c) ∧
    (∀ (t0 t1 : String) (rest : List String), t1 ≠ "POTA" → t1 ≠ "SOTA" →
        GTB.extractCall (t0 :: t1 :: rest) = some t1) ∧
    (∀ band mode : String, (∀ ch ∈ mode.data, ch ≠ '-') →
        GTB.rsplitLastDash (band ++ "-" ++ mode) = some (band, mode)) ∧
    GTB.handleReplyRoute "CQ POTA K1ABC FN42" "40m-CW" =
      some ("40m", "K1ABC", "CW") := by
  refine ⟨?_, ?_, ?_, by rfl⟩
  · intro t0 c rest act hact
    have h1 : ¬ ((t0 :: act :: c :: rest).length < 2) := by simp
    have h2 : 3 ≤ (t0 :: act :: c :: rest).length ∧
        ((t0 :: act :: c :: rest).getD 1 "" = "POTA" ∨
         (t0 :: act :: c :: rest).getD 1 "" = "SOTA") := ⟨by simp, hact⟩
    rw [GTB.extractCall, if_neg h1, if_pos h2]
    rfl
  · intro t0 t1 rest h1 h2
    have g1 : ¬ ((t0 :: t1 :: rest).length < 2) := by simp
    have g2 : ¬ (3 ≤ (t0 :: t1 :: rest).length ∧
        ((t0 :: t1 :: rest).getD 1 "" = "POTA" ∨
         (t0 :: t1 :: rest).getD 1 "" = "SOTA")) := by
      rintro ⟨-, h | h⟩
      · exact h1 h
      · exact h2 h
    rw [GTB.extractCall, if_neg g1, if_neg g2]
    rfl
  · intro band mode hmode
    have e1 : (band ++ "-" ++ mode).data = band.data ++ '-' :: mode.data := by
      simp [String.data_append]
    have hmem : '-' ∈ (band ++ "-" ++ mode).data := by
      rw [e1]
      simp
    have er : (band ++ "-" ++ mode).data.reverse =
        mode.data.reverse ++ '-' :: band.data.reverse := by
      rw [e1]
      simp [List.reverse_append]
    have etw : ((band ++ "-" ++ mode).data.reverse.takeWhile
        (fun c => c ≠ '-')).reverse = mode.data := by
      rw [er, takeWhile_append_cons _ _ _ _
        (fun x hx => by simpa using hmode x (List.mem_reverse.mp hx)) (by simp),
        List.reverse_reverse]
    have elen : (band ++ "-" ++ mode).data.length - mode.data.length - 1 =
        band.data.length := by
      rw [e1]
      simp only [List.length_append, List.length_cons]
      omega
    simp only [GTB.rsplitLastDash]
    rw [if_pos hmem, etw, elen, e1, List.take_left]

/-- C8 — witness: the amended theorem's token rules and client-id split
applied at concrete inputs. -/
theorem c8_route_amended_witness :
    GTB.extractCall ["CQ", "SOTA", "W1AW"] = some "W1AW" ∧
    GTB.extractCall ["CQ", "K1ABC", "FN42"] = some "K1ABC" ∧
    GTB.rsplitLastDash ("40m" ++ "-" ++ "CW") = some ("40m", "CW") :=
  ⟨c8_route_amended.1 "CQ" "W1AW" [] "SOTA" (Or.inr rfl),
   c8_route_amended.2.1 "CQ" "K1ABC" ["FN42"] (by decide) (by decide),
   c8_route_amended.2.2.1 "40m" "CW" (by decide)⟩

/-- C10 — `GTBridge.run` constructs `POTAFetcher` with a `spot_ttl` keyword
argument that `POTAFetcher.__init__` does not declare, so (for every
configuration with `pota_spots` enabled — the keyword names do not depend
on the configuration) the call raises `TypeError` and the parks poll loop
can never start; the parallel `SOTAFetcher` call binds cleanly because its
initializer does declare `spot_ttl`. -/
theorem c10_pota_spot_ttl_type_error :
    GTB.pyCallRaisesTypeError GTB.potaInitParams GTB.runPotaCallKwargs = true ∧
    GTB.pyCallRaisesTypeError GTB.sotaInitParams GTB.runSotaCallKwargs = false := by
  decide

/-! ## Theorems for claim C4 -/

namespace GTB

/-- One flush cycle preserves resolvability of an entry last updated at
`u`, as long as the cycle runs no later than `u + ttl + grace`: the entry
is either still live with its timestamp, or stale with an expiry time that
exceeded the TTL. -/
theorem flushCache_inv (ttl grace u τ : ℚ) (hg : 0 ≤ grace) (key : SpotKey)
    (live stale : Cache) (hτ : τ ≤ u + ttl + grace)
    (h : (∃ e, live key = some e ∧ e.last_updated = u) ∨
         (live key = none ∧ ∃ e, stale key = some e ∧
           ∃ t1, e.expired_at = some t1 ∧ t1 - u > ttl)) :
    (∃ e, (flushCache ttl grace τ live stale).1 key = some e ∧ e.last_updated = u) ∨
    ((flushCache ttl grace τ live stale).1 key = none ∧
      ∃ e, (flushCache ttl grace τ live stale).2 key = some e ∧
        ∃ t1, e.expired_at = some t1 ∧ t1 - u > ttl) := by
  rcases h with ⟨e, hl, hu⟩ | ⟨hl, e, hs, t1, he, ht1⟩
  · by_cases hexp : τ - e.last_updated > ttl
    · right
      have hpc : purgeCheck grace τ { e with expired_at := some τ } =
          some { e with expired_at := some τ } := by
        rw [purgeCheck, if_neg]
        simp only [Option.getD_some]
        simp only [sub_self]
        exact fun hlt => absurd hg (by linarith)
      constructor
      · simp only [flushCache]
        rw [hl]
        simp [hexp]
      · refine ⟨{ e with expired_at := some τ }, ?_, τ, rfl, by rw [← hu]; exact hexp⟩
        simp only [flushCache]
        rw [hl]
        simp [hexp, hpc]
    · left
      refine ⟨e, ?_, hu⟩
      simp only [flushCache]
      rw [hl]
      simp [hexp]
  · have hpc : purgeCheck grace τ e = some e := by
      rw [purgeCheck, if_neg]
      rw [he]
      simp only [Option.getD_some]
      exact fun hlt => absurd hτ (by linarith)
    right
    refine ⟨?_, e, ?_, t1, he, ht1⟩
    · simp only [flushCache]
      rw [hl]
      simp
    · simp only [flushCache]
      rw [hl, hs]
      simp [hpc]

/-- The invariant of `flushCache_inv` carried through a list of flush
cycles. -/
theorem flushFold_inv (ttl grace u : ℚ) (hg : 0 ≤ grace) (key : SpotKey)
    (ts : List ℚ) (live stale : Cache)
    (hts : ∀ τ ∈ ts, τ ≤ u + ttl + grace)
    (h : (∃ e, live key = some e ∧ e.last_updated = u) ∨
         (live key = none ∧ ∃ e, stale key = some e ∧
           ∃ t1, e.expired_at = some t1 ∧ t1 - u > ttl)) :
    (∃ e, (flushFold ttl grace ts live stale).1 key = some e ∧ e.last_updated = u) ∨
    ((flushFold ttl grace ts live stale).1 key = none ∧
      ∃ e, (flushFold ttl grace ts live stale).2 key = some e ∧
        ∃ t1, e.expired_at = some t1 ∧ t1 - u > ttl) := by
  induction ts generalizing live stale with
  | nil => simpa [flushFold] using h
  | cons τ ts ih =>
    have step := flushCache_inv ttl grace u τ hg key live stale (hts τ (by simp)) h
    have rest := ih (flushCache ttl grace τ live stale).1
      (flushCache ttl grace τ live stale).2
      (fun x hx => hts x (by simp [hx])) step
    simpa [flushFold, List.foldl_cons] using rest

end GTB

unseal Rat.add Rat.sub in
/-- C4 — counterexample. The claim says a spot is "not resolvable beyond"
spot_ttl + grace_ttl = 900 s after its last update, but purging only
happens at flush cycles: with flush cycles at t = 305 and t = 610 (a legal
cycle_interval of 305 s), an entry that arrived at t = 0 is expired by the
t = 610 cycle (expired_at = 610) and no later cycle has purged it, so the
click-to-tune lookup still resolves it at t = 914 > 900. -/
theorem c4_ttl_counterexample :
    (GTB.cacheLookup
      (GTB.flushFold 600 300 [305, 610]
        (fun k => if k = ("20m", "K1ABC") then
            some { spot := ⟨"S", 14074, "K1ABC", "", "0000", some "CW", none, none, none⟩,
                   cluster_name := "c", first_seen := 0, last_updated := 0,
                   expired_at := none }
          else none)
        (fun _ => none)).1
      (GTB.flushFold 600 300 [305, 610]
        (fun k => if k = ("20m", "K1ABC") then
            some { spot := ⟨"S", 14074, "K1ABC", "", "0000", some "CW", none, none, none⟩,
                   cluster_name := "c", first_seen := 0, last_updated := 0,
                   expired_at := none }
          else none)
        (fun _ => none)).2
      ("20m", "K1ABC")).isSome = true ∧ (914 : ℚ) > 600 + 300 := by
  constructor
  · rfl
  · decide

set_option maxRecDepth 40000 in
unseal Rat.add Rat.sub in
/-- C4 (amended) — with spot_ttl = 600 and grace = 300 under the default
15-second flush cadence, an entry arriving at t = 0 and never updated is
live at t = 500, stale at t = 700, and absent from both caches at t = 1000;
and in general a spot last updated at time u stays resolvable by the
click-to-tune lookup (live cache then stale cache) through every flush
schedule whose cycles all run no later than u + spot_ttl + grace_ttl — it
is only purged by a flush running more than grace_ttl after the flush that
expired it, which can be later than u + spot_ttl + grace_ttl. -/
theorem c4_ttl_grace_amended :
    (((GTB.flushFold 600 300 ([15, 30, 45, 60, 75, 90, 105, 120, 135, 150, 165, 180, 195, 210, 225, 240, 255, 270, 285, 300, 315, 330, 345, 360, 375, 390, 405, 420, 435, 450, 465, 480, 495, 510, 525, 540, 555, 570, 585, 600, 615, 630, 645, 660, 675, 690, 705, 720, 735, 750, 765, 780, 795, 810, 825, 840, 855, 870, 885, 900, 915, 930, 945, 960, 975, 990].take 33)
        (fun k => if k = ("20m", "K1ABC") then
            some { spot := ⟨"S", 14074, "K1ABC", "", "0000", some "CW", none, none, none⟩,
                   cluster_name := "c", first_seen := 0, last_updated := 0,
                   expired_at := none }
          else none)
        (fun _ => none)).1 ("20m", "K1ABC")).isSome = true ∧
     ((GTB.flushFold 600 300 ([15, 30, 45, 60, 75, 90, 105, 120, 135, 150, 165, 180, 195, 210, 225, 240, 255, 270, 285, 300, 315, 330, 345, 360, 375, 390, 405, 420, 435, 450, 465, 480, 495, 510, 525, 540, 555, 570, 585, 600, 615, 630, 645, 660, 675, 690, 705, 720, 735, 750, 765, 780, 795, 810, 825, 840, 855, 870, 885, 900, 915, 930, 945, 960, 975, 990].take 46)
        (fun k => if k = ("20m", "K1ABC") then
            some { spot := ⟨"S", 14074, "K1ABC", "", "0000", some "CW", none, none, none⟩,
                   cluster_name := "c", first_seen := 0, last_updated := 0,
                   expired_at := none }
          else none)
        (fun _ => none)).1 ("20m", "K1ABC") = none ∧
      ((GTB.flushFold 600 300 ([15, 30, 45, 60, 75, 90, 105, 120, 135, 150, 165, 180, 195, 210, 225, 240, 255, 270, 285, 300, 315, 330, 345, 360, 375, 390, 405, 420, 435, 450, 465, 480, 495, 510, 525, 540, 555, 570, 585, 600, 615, 630, 645, 660, 675, 690, 705, 720, 735, 750, 765, 780, 795, 810, 825, 840, 855, 870, 885, 900, 915, 930, 945, 960, 975, 990].take 46)
        (fun k => if k = ("20m", "K1ABC") then
            some { spot := ⟨"S", 14074, "K1ABC", "", "0000", some "CW", none, none, none⟩,
                   cluster_name := "c", first_seen := 0, last_updated := 0,
                   expired_at := none }
          else none)
        (fun _ => none)).2 ("20m", "K1ABC")).isSome = true) ∧
     ((GTB.flushFold 600 300 [15, 30, 45, 60, 75, 90, 105, 120, 135, 150, 165, 180, 195, 210, 225, 240, 255, 270, 285, 300, 315, 330, 345, 360, 375, 390, 405, 420, 435, 450, 465, 480, 495, 510, 525, 540, 555, 570, 585, 600, 615, 630, 645, 660, 675, 690, 705, 720, 735, 750, 765, 780, 795, 810, 825, 840, 855, 870, 885, 900, 915, 930, 945, 960, 975, 990]
        (fun k => if k = ("20m", "K1ABC") then
            some { spot := ⟨"S", 14074, "K1ABC", "", "0000", some "CW", none, none, none⟩,
                   cluster_name := "c", first_seen := 0, last_updated := 0,
                   expired_at := none }
          else none)
        (fun _ => none)).1 ("20m", "K1ABC") = none ∧
      (GTB.flushFold 600 300 [15, 30, 45, 60, 75, 90, 105, 120, 135, 150, 165, 180, 195, 210, 225, 240, 255, 270, 285, 300, 315, 330, 345, 360, 375, 390, 405, 420, 435, 450, 465, 480, 495, 510, 525, 540, 555, 570, 585, 600, 615, 630, 645, 660, 675, 690, 705, 720, 735, 750, 765, 780, 795, 810, 825, 840, 855, 870, 885, 900, 915, 930, 945, 960, 975, 990]
        (fun k => if k = ("20m", "K1ABC") then
            some { spot := ⟨"S", 14074, "K1ABC", "", "0000", some "CW", none, none, none⟩,
                   cluster_name := "c", first_seen := 0, last_updated := 0,
                   expired_at := none }
          else none)
        (fun _ => none)).2 ("20m", "K1ABC") = none)) ∧
    (∀ (ttl grace u : ℚ) (ts : List ℚ) (key : GTB.SpotKey)
        (live stale : GTB.Cache) (e : GTB.CacheEntry),
      0 ≤ grace → live key = some e → e.last_updated = u →
      (∀ τ ∈ ts, τ ≤ u + ttl + grace) →
      GTB.cacheLookup (GTB.flushFold ttl grace ts live stale).1
        (GTB.flushFold ttl grace ts live stale).2 key ≠ none) := by
  constructor
  · constructor
    · rfl
    · constructor
      · constructor
        · rfl
        · rfl
      · constructor
        · rfl
        · rfl
  · intro ttl grace u ts key live stale e hg hle hu hts
    have := GTB.flushFold_inv ttl grace u hg key ts live stale hts
      (Or.inl ⟨e, hle, hu⟩)
    rcases this with ⟨e2, h2, -⟩ | ⟨h1, e2, h2, -⟩
    · rw [GTB.cacheLookup, h2]
      simp
    · rw [GTB.cacheLookup, h1, h2]
      simp

unseal Rat.add in
/-- C4 — witness: the general resolvability bound applied to a single
flush at t = 700 on a one-entry cache. -/
theorem c4_ttl_grace_amended_witness :
    GTB.cacheLookup
      (GTB.flushFold 600 300 [700]
        (fun k => if k = (("20m", "K1ABC") : GTB.SpotKey) then
            some { spot := ⟨"S", 14074, "K1ABC", "", "0000", some "CW", none, none, none⟩,
                   cluster_name := "c", first_seen := 0, last_updated := 0,
                   expired_at := none }
          else none)
        (fun _ => none)).1
      (GTB.flushFold 600 300 [700]
        (fun k => if k = (("20m", "K1ABC") : GTB.SpotKey) then
            some { spot := ⟨"S", 14074, "K1ABC", "", "0000", some "CW", none, none, none⟩,
                   cluster_name := "c", first_seen := 0, last_updated := 0,
                   expired_at := none }
          else none)
        (fun _ => none)).2
      ("20m", "K1ABC") ≠ none :=
  c4_ttl_grace_amended.2 600 300 0 [700] ("20m", "K1ABC") _ _
    { spot := ⟨"S", 14074, "K1ABC", "", "0000", some "CW", none, none, none⟩,
      cluster_name := "c", first_seen := 0, last_updated := 0,
      expired_at := none }
    (by decide) rfl rfl (by decide)

/-! ## Theorems for claim C3 -/

namespace GTB

/-- The SOTA per-record dedup decision delivers exactly when the callsign
is new, its state tuple changed, or the refresh interval has elapsed. -/
theorem sotaProcessRecord_delivers (lastState : LastState) (refresh now : ℚ)
    (grids : String → Option String) (call : String) (s : SotaRecord)
    (fq : ℚ) (m : String)
    (hfq : s.frequency = some fq)
    (hqrt : containsQRT (pyUpper s.comments).data = false)
    (hlow : ¬ fq * 1000 < 1800) (hhigh : ¬ fq * 1000 > 450000)
    (hm : m = if pyUpper s.mode = "OTHER" then "" else pyUpper s.mode)
    (hft8 : m ≠ "FT8") (hft4 : m ≠ "FT4") :
    (sotaProcessRecord lastState refresh now grids call s).1 ≠ none ↔
      (lastState call = none ∨
        ∃ st ts, lastState call = some (st, ts) ∧
          (st ≠ (fq * 1000, m) ∨ refresh ≤ now - ts)) := by
  simp only [sotaProcessRecord]
  have c1 : ¬ (s.frequency.isNone = true) := by rw [hfq]; simp
  rw [if_neg c1]
  have c2 : ¬ (containsQRT (pyUpper s.comments).data = true) := by rw [hqrt]; simp
  rw [if_neg c2]
  have hg : s.frequency.getD 0 = fq := by rw [hfq]; rfl
  rw [hg, if_neg (show ¬ (fq * 1000 < 1800 ∨ fq * 1000 > 450000) from
    fun h => h.elim hlow hhigh), ← hm,
    if_neg (show ¬ (m = "FT8" ∨ m = "FT4") from fun h => h.elim hft8 hft4)]
  rcases hls : lastState call with _ | ⟨st, ts⟩
  · rw [if_neg (show ¬ ((none : Option ((ℚ × String) × ℚ)).isSome = true ∧
        (((none : Option ((ℚ × String) × ℚ)).getD ((0, ""), 0)).1 = (fq * 1000, m) ∧
         now - ((none : Option ((ℚ × String) × ℚ)).getD ((0, ""), 0)).2 < refresh))
      from fun h => by simp at h)]
    simp
  · by_cases hcond : st = (fq * 1000, m) ∧ now - ts < refresh
    · rw [if_pos ⟨rfl, hcond.1, hcond.2⟩]
      constructor
      · intro h
        exact absurd rfl h
      · rintro (h | ⟨st2, ts2, heq, hor⟩)
        · exact Option.noConfusion h
        · injection heq with heq2
          cases heq2
          rcases hor with h2 | h2
          · exact absurd hcond.1 h2
          · exact absurd hcond.2 (not_lt.mpr h2)
    · rw [if_neg (show ¬ ((some (st, ts)).isSome = true ∧
          (((some (st, ts)).getD ((0, ""), 0)).1 = (fq * 1000, m) ∧
           now - ((some (st, ts)).getD ((0, ""), 0)).2 < refresh))
        from fun h => hcond ⟨h.2.1, h.2.2⟩)]
      constructor
      · intro _
        refine Or.inr ⟨st, ts, rfl, ?_⟩
        by_cases hst : st = (fq * 1000, m)
        · right
          by_contra hle
          exact hcond ⟨hst, not_le.mp hle⟩
        · exact Or.inl hst
      · intro _
        simp

/-- A callsign in `current_calls` after one fold step came from the
accumulator or from this record. -/
theorem sotaPollStep_calls (refresh now : ℚ) (grids : String → Option String)
    (acc : List DXSpot × LastState × List String) (cs : String × SotaRecord)
    (c : String) (h : c ∈ (sotaPollStep refresh now grids acc cs).2.2) :
    c ∈ acc.2.2 ∨ c = cs.1 := by
  simp only [sotaPollStep] at h
  by_cases hadd : (sotaProcessRecord acc.2.1 refresh now grids cs.1 cs.2).2.2
  · rw [if_pos hadd] at h
    rcases List.mem_cons.mp h with h | h
    · exact Or.inr h
    · exact Or.inl h
  · rw [if_neg hadd] at h
    exact Or.inl h

/-- A callsign in `current_calls` after the fold came from the accumulator
or from some record of the poll. -/
theorem sotaFold_calls (refresh now : ℚ) (grids : String → Option String)
    (records : List (String × SotaRecord)) :
    ∀ (acc : List DXSpot × LastState × List String) (c : String),
      c ∈ (records.foldl (sotaPollStep refresh now grids) acc).2.2 →
      c ∈ acc.2.2 ∨ ∃ r ∈ records, r.1 = c := by
  induction records with
  | nil =>
    intro acc c h
    exact Or.inl h
  | cons r rs ih =>
    intro acc c h
    rw [List.foldl_cons] at h
    rcases ih _ c h with hacc | ⟨r2, hr2, he⟩
    · rcases sotaPollStep_calls refresh now grids acc r c hacc with h1 | h2
      · exact Or.inl h1
      · exact Or.inr ⟨r, by simp, h2.symm⟩
    · exact Or.inr ⟨r2, by simp [hr2], he⟩

end GTB

/-- C3 — counterexample. The claim says both pollers key their dedup map
on the callsign and redeliver only on a new callsign, a changed
(freq_khz, mode) tuple, or an elapsed refresh interval, but the parks
poller dedups on the upstream spotId alone: two successive polls carrying
different spotIds for the same callsign with an identical (freq_khz, mode)
tuple (and no time passing — `potaPoll` keeps no timestamps at all) both
deliver the spot. -/
theorem c3_pota_dedup_counterexample :
    ((GTB.potaPoll [] [⟨some 1, "K1ABC", some 7200, "SSB", "", "US-0001", ""⟩]).1.map
        (fun s => (s.dx_call, s.freq_khz, s.mode)) =
      [("K1ABC", (7200 : ℚ), some "SSB")]) ∧
    ((GTB.potaPoll
        (GTB.potaPoll [] [⟨some 1, "K1ABC", some 7200, "SSB", "", "US-0001", ""⟩]).2
        [⟨some 2, "K1ABC", some 7200, "SSB", "", "US-0001", ""⟩]).1.map
        (fun s => (s.dx_call, s.freq_khz, s.mode)) =
      [("K1ABC", (7200 : ℚ), some "SSB")]) := by
  constructor
  · rfl
  · rfl

/-- C3 (amended) — only the summits poller implements the claimed policy:
it maintains `callsign → ((freq_khz, mode), monotonic_ts)` and delivers a
record that passes its filters exactly when the callsign is new, the state
tuple differs, or at least `refresh_interval = max(spot_ttl − 30, 60)`
seconds have elapsed (the interval the summits fetcher computes from its
`spot_ttl`); after the poll, map entries whose callsigns produced no
processed record are pruned.  The parks poller instead dedups on the
upstream spotId alone and prunes by spotId. -/
theorem c3_sota_dedup_amended :
    (∀ (lastState : GTB.LastState) (spotTtl : Int) (now : ℚ)
        (grids : String → Option String) (call : String) (s : GTB.SotaRecord)
        (fq : ℚ) (m : String),
      s.frequency = some fq →
      GTB.containsQRT (GTB.pyUpper s.comments).data = false →
      ¬ fq * 1000 < 1800 → ¬ fq * 1000 > 450000 →
      m = (if GTB.pyUpper s.mode = "OTHER" then "" else GTB.pyUpper s.mode) →
      m ≠ "FT8" → m ≠ "FT4" →
      ((GTB.sotaProcessRecord lastState
          ((max (spotTtl - 30) 60 : Int) : ℚ) now grids call s).1 ≠ none ↔
        (lastState call = none ∨
          ∃ st ts, lastState call = some (st, ts) ∧
            (st ≠ (fq * 1000, m) ∨ ((max (spotTtl - 30) 60 : Int) : ℚ) ≤ now - ts)))) ∧
    (∀ (lastState : GTB.LastState) (refresh now : ℚ)
        (grids : String → Option String) (records : List (String × GTB.SotaRecord))
        (c : String),
      (∀ r ∈ records, r.1 ≠ c) →
      (GTB.sotaPoll lastState refresh now grids records).2 c = none) := by
  constructor
  · intro lastState spotTtl now grids call s fq m hfq hqrt hlow hhigh hm hft8 hft4
    exact GTB.sotaProcessRecord_delivers lastState _ now grids call s fq m
      hfq hqrt hlow hhigh hm hft8 hft4
  · intro lastState refresh now grids records c hc
    simp only [GTB.sotaPoll]
    rw [if_neg]
    intro hmem
    rcases GTB.sotaFold_calls refresh now grids records ([], lastState, []) c hmem with
      h | ⟨r, hr, he⟩
    · exact absurd h (by simp)
    · exact hc r hr he

unseal Rat.mul Rat.add Rat.sub in
/-- C3 — witness: the summits dedup rule applied to an empty state with a
concrete 7 MHz CW record, and the pruning rule applied to an empty poll. -/
theorem c3_sota_dedup_amended_witness :
    ((GTB.sotaProcessRecord (fun _ => none) ((max ((600 : Int) - 30) 60 : Int) : ℚ) 0
        (fun _ => none) "W1AW" ⟨some 7, "CW", "W0C", "FR-102", "", ""⟩).1 ≠ none ↔
      ((fun _ => none : GTB.LastState) "W1AW" = none ∨
        ∃ st ts, (fun _ => none : GTB.LastState) "W1AW" = some (st, ts) ∧
          (st ≠ ((7 : ℚ) * 1000, "CW") ∨
            ((max ((600 : Int) - 30) 60 : Int) : ℚ) ≤ 0 - ts))) ∧
    (GTB.sotaPoll (fun _ => none) 570 0 (fun _ => none) []).2 "K1ABC" = none :=
  ⟨c3_sota_dedup_amended.1 (fun _ => none) 600 0 (fun _ => none) "W1AW"
    ⟨some 7, "CW", "W0C", "FR-102", "", ""⟩ 7 "CW" rfl (by decide) (by decide)
    (by decide) (by decide) (by decide) (by decide),
   c3_sota_dedup_amended.2 (fun _ => none) 570 0 (fun _ => none) [] "K1ABC"
    (by simp)⟩
